import Mathlib

/-!
Verification of the slide-to-canvas conversion pipeline implemented in
`src/apps/demo/src/components/TldrawCanvas.tsx` (repository `cliftonc/ppt-paste`).

The TypeScript source is shallowly embedded below.  JavaScript numbers are
modelled by `JSNum`: an exact rational together with the special values
`Infinity`, `-Infinity` and `NaN`, with the IEEE special-value rules for the
arithmetic the source performs (floating-point rounding is not modelled; all
arithmetic in the source that the claims exercise is exact).  Host functions
the source calls (`Math.cos`, `Math.sin`, `fetch`/`blob` decoding, tldraw's
random asset-id generator) are environment parameters.  Shape creation is
modelled by returning the list of created shape descriptors and asset records
in creation order.
-/

/-- Model of a JavaScript number: an exact rational, or one of the IEEE
special values. -/
inductive JSNum where
  | finite : ℚ → JSNum
  | posInf : JSNum
  | negInf : JSNum
  | nan : JSNum
deriving DecidableEq, Repr

instance : OfNat JSNum n := ⟨.finite n⟩

namespace JSNum

/-- JS addition on the model (special-value rules of IEEE; exact on finites). -/
def add : JSNum → JSNum → JSNum
  | .nan, _ => .nan
  | _, .nan => .nan
  | .posInf, .negInf => .nan
  | .negInf, .posInf => .nan
  | .posInf, _ => .posInf
  | _, .posInf => .posInf
  | .negInf, _ => .negInf
  | _, .negInf => .negInf
  | .finite a, .finite b => .finite (a + b)

/-- JS unary negation. -/
def neg : JSNum → JSNum
  | .finite a => .finite (-a)
  | .posInf => .negInf
  | .negInf => .posInf
  | .nan => .nan

/-- JS subtraction. -/
def sub (a b : JSNum) : JSNum := add a (neg b)

/-- JS multiplication (`Infinity * 0 = NaN`, sign rules, exact on finites). -/
def mul : JSNum → JSNum → JSNum
  | .nan, _ => .nan
  | _, .nan => .nan
  | .finite a, .finite b => .finite (a * b)
  | .posInf, .finite b => if b = 0 then .nan else if 0 < b then .posInf else .negInf
  | .finite a, .posInf => if a = 0 then .nan else if 0 < a then .posInf else .negInf
  | .negInf, .finite b => if b = 0 then .nan else if 0 < b then .negInf else .posInf
  | .finite a, .negInf => if a = 0 then .nan else if 0 < a then .negInf else .posInf
  | .posInf, .posInf => .posInf
  | .posInf, .negInf => .negInf
  | .negInf, .posInf => .negInf
  | .negInf, .negInf => .posInf

/-- JS division (`x / 0` is `±Infinity` for `x ≠ 0`, `0 / 0 = NaN`; the model
has a single zero, behaving as JS `+0`). -/
def div : JSNum → JSNum → JSNum
  | .nan, _ => .nan
  | _, .nan => .nan
  | .finite a, .finite b =>
      if b = 0 then (if a = 0 then .nan else if 0 < a then .posInf else .negInf)
      else .finite (a / b)
  | .finite _, .posInf => .finite 0
  | .finite _, .negInf => .finite 0
  | .posInf, .finite b => if 0 ≤ b then .posInf else .negInf
  | .negInf, .finite b => if 0 ≤ b then .negInf else .posInf
  | .posInf, .posInf => .nan
  | .posInf, .negInf => .nan
  | .negInf, .posInf => .nan
  | .negInf, .negInf => .nan

/-- `Math.max` of two values (`NaN` if either argument is `NaN`). -/
def max2 : JSNum → JSNum → JSNum
  | .nan, _ => .nan
  | _, .nan => .nan
  | .posInf, _ => .posInf
  | _, .posInf => .posInf
  | .negInf, b => b
  | a, .negInf => a
  | .finite a, .finite b => .finite (max a b)

/-- The JS `>` comparison (false whenever an operand is `NaN`). -/
def gt : JSNum → JSNum → Bool
  | .nan, _ => false
  | _, .nan => false
  | .finite a, .finite b => decide (b < a)
  | .posInf, .posInf => false
  | .posInf, _ => true
  | _, .posInf => false
  | .negInf, _ => false
  | _, .negInf => true

/-- The JS `<=` comparison (false whenever an operand is `NaN`). -/
def le : JSNum → JSNum → Bool
  | .nan, _ => false
  | _, .nan => false
  | .finite a, .finite b => decide (a ≤ b)
  | .negInf, _ => true
  | _, .negInf => false
  | _, .posInf => true
  | .posInf, _ => false

/-- JS truthiness of a number: `0` and `NaN` are falsy. -/
def truthy : JSNum → Bool
  | .finite a => decide (a ≠ 0)
  | .posInf => true
  | .negInf => true
  | .nan => false

/-- Whether the value is a finite number. -/
def isFinite : JSNum → Bool
  | .finite _ => true
  | _ => false

end JSNum

/-- `opt || default` on an optional numeric field: absent, `0` and `NaN` all
fall back to the default (JS `||`). -/
def numOr (o : Option JSNum) (d : JSNum) : JSNum :=
  match o with
  | some v => if v.truthy then v else d
  | none => d

/-- `opt ?? default` (JS nullish coalescing): only absence falls back. -/
def numNullish (o : Option JSNum) (d : JSNum) : JSNum :=
  match o with
  | some v => v
  | none => d

/-- `opt || default` on an optional string field: absent and `""` fall back. -/
def strOr (o : Option String) (d : String) : String :=
  match o with
  | some s => if s = "" then d else s
  | none => s!"{d}"

/-- The exact rational value of the double `Math.PI`
(`3.141592653589793` = `884279719003555 / 2^48`). -/
def jsPI : JSNum := .finite (884279719003555 / 281474976710656)

/-- Fuelled decimal-digit computation (structural recursion so that concrete
values reduce inside the kernel; the fuel is immaterial once it is at least
the argument, see `natDigitsF_fuel`). -/
def natDigitsF : Nat → Nat → List Char
  | 0, n => [Nat.digitChar n]
  | fuel + 1, n =>
    if n < 10 then [Nat.digitChar n]
    else natDigitsF fuel (n / 10) ++ [Nat.digitChar (n % 10)]

/-- Decimal digits of a natural number, most significant first — the model of
JS number-to-string conversion for the nonnegative integers the source
interpolates into template literals. -/
def natDigits (n : Nat) : List Char := natDigitsF n n

/-- Decimal rendering of a natural number as a string. -/
def natToString (n : Nat) : String := ⟨natDigits n⟩


/-- Split a character list at every dash, the dashes removed.  Used to analyse
the shape-identifier strings the source builds with template literals. -/
def splitDash : List Char → List (List Char)
  | [] => [[]]
  | c :: cs =>
    if c = '-' then [] :: splitDash cs
    else
      match splitDash cs with
      | [] => [[c]]
      | g :: gs => (c :: g) :: gs


/-- Whether character list `s` starts with `p` (model of `String.startsWith`
restricted to the ASCII literals the source uses). -/
def swL : List Char → List Char → Bool
  | _, [] => true
  | [], _ :: _ => false
  | a :: as, b :: bs => a = b && swL as bs

/-- Whether character list `needle` occurs inside `hay` (model of JS
`String.includes`). -/
def inclL : List Char → List Char → Bool
  | [], needle => needle.isEmpty
  | h :: t, needle => swL (h :: t) needle || inclL t needle

/-- JS `s.startsWith(p)`. -/
def jsStartsWith (s p : String) : Bool := swL s.data p.data

/-- JS `s.includes(p)`. -/
def jsIncl (s p : String) : Bool := inclL s.data p.data

/-- JS ASCII lower-casing (`String.prototype.toLowerCase` on the ASCII
strings the source compares). -/
def jsToLower (s : String) : String := ⟨s.data.map Char.toLower⟩

/-- An ASCII whitespace character (the whitespace the source's table cells
can contain). -/
def wsp (c : Char) : Bool := c = ' ' || c = '\t' || c = '\n' || c = '\r'

/-- JS `s.trim()`: strip whitespace from both ends. -/
def jsTrim (s : String) : String :=
  ⟨((s.data.dropWhile wsp).reverse.dropWhile wsp).reverse⟩

/-- The closed tldraw colour vocabulary (the 12-entry palette). -/
inductive TldrawColor where
  | black | grey | lightViolet | violet | blue | lightBlue
  | yellow | orange | green | lightGreen | lightRed | red
deriving DecidableEq, Repr

/-- The 12-entry palette as a list. -/
def palette12 : List TldrawColor :=
  [.black, .grey, .lightViolet, .violet, .blue, .lightBlue,
   .yellow, .orange, .green, .lightGreen, .lightRed, .red]

/-- tldraw size buckets. -/
inductive TldrawSize where
  | s | m | l | xl
deriving DecidableEq, Repr

/-- tldraw font buckets. -/
inductive TldrawFont where
  | draw | sans | serif | mono
deriving DecidableEq, Repr

/-- tldraw geo primitive kinds appearing in the source. -/
inductive GeoType where
  | rectangle | ellipse | triangle | diamond | pentagon | hexagon | octagon
  | star | rhombus | oval | trapezoid | arrowRight | arrowLeft | arrowUp
  | arrowDown | xBox | checkBox | cloud | heart
deriving DecidableEq, Repr

/-- tldraw fill styles appearing in the source (`'solid'`, `'none'`,
`'pattern'`; `noFill` stands for the source string `'none'`). -/
inductive FillStyle where
  | solid | noFill | pattern
deriving DecidableEq, Repr

/-- `component.style` (all fields optional). -/
structure CompStyle where
  color : Option String := none
  backgroundColor : Option String := none
  borderColor : Option String := none
  fontSize : Option JSNum := none
  fontFamily : Option String := none
  shapeType : Option String := none
deriving DecidableEq, Repr

/-- `component.metadata` (all fields optional; `hasHeader` absent reads falsy). -/
structure CompMetadata where
  shapeType : Option String := none
  preset : Option String := none
  name : Option String := none
  imageUrl : Option String := none
  tableData : Option (List (List String)) := none
  rows : Option JSNum := none
  cols : Option JSNum := none
  hasHeader : Bool := false
deriving DecidableEq, Repr

/-- One parsed PowerPoint component. -/
structure Component where
  id : Option String := none
  type : String
  x : Option JSNum := none
  y : Option JSNum := none
  width : Option JSNum := none
  height : Option JSNum := none
  rotation : Option JSNum := none
  zIndex : Option JSNum := none
  content : Option String := none
  richText : Option String := none
  style : Option CompStyle := none
  metadata : Option CompMetadata := none
deriving DecidableEq, Repr

/-- One parsed PowerPoint slide (`name` is `slide.metadata?.name`). -/
structure Slide where
  slideNumber : Nat
  name : Option String := none
  components : List Component
deriving DecidableEq, Repr

def Component.styleColor (c : Component) : Option String :=
  match c.style with | some st => st.color | none => none

def Component.styleBg (c : Component) : Option String :=
  match c.style with | some st => st.backgroundColor | none => none

def Component.styleBorder (c : Component) : Option String :=
  match c.style with | some st => st.borderColor | none => none

def Component.styleFontSize (c : Component) : Option JSNum :=
  match c.style with | some st => st.fontSize | none => none

def Component.styleFontFamily (c : Component) : Option String :=
  match c.style with | some st => st.fontFamily | none => none

def Component.styleShapeType (c : Component) : Option String :=
  match c.style with | some st => st.shapeType | none => none

def Component.mdShapeType (c : Component) : Option String :=
  match c.metadata with | some md => md.shapeType | none => none

def Component.mdPreset (c : Component) : Option String :=
  match c.metadata with | some md => md.preset | none => none

def Component.mdName (c : Component) : Option String :=
  match c.metadata with | some md => md.name | none => none

def Component.mdImageUrl (c : Component) : Option String :=
  match c.metadata with | some md => md.imageUrl | none => none

/-- `component.metadata?.tableData || []`. -/
def Component.mdTableData (c : Component) : List (List String) :=
  match c.metadata with
  | some md => match md.tableData with | some td => td | none => []
  | none => []

def Component.mdRows (c : Component) : Option JSNum :=
  match c.metadata with | some md => md.rows | none => none

def Component.mdCols (c : Component) : Option JSNum :=
  match c.metadata with | some md => md.cols | none => none

def Component.mdHasHeader (c : Component) : Bool :=
  match c.metadata with | some md => md.hasHeader | none => false

/-- Text colour classifier of `renderTextComponent` (source lines 206-224):
`component.style?.color` guarded by truthiness, then the cascading hex
matches, defaulting to black. -/
def classifyTextColor (c : Option String) : TldrawColor :=
  match c with
  | some col =>
    if col = "" then .black
    else
      let hexColor := jsToLower col
      if hexColor = "#000000" then .black
      else if hexColor = "#e97132" then .orange
      else if hexColor = "#4ea72e" then .green
      else if jsStartsWith hexColor "#ff" || jsStartsWith hexColor "#e"
          || jsStartsWith hexColor "#d" then
        (if jsIncl hexColor "7" || jsIncl hexColor "8" || jsIncl hexColor "9"
         then .orange else .red)
      else if jsStartsWith hexColor "#4"
          || (jsStartsWith hexColor "#0" && jsIncl hexColor "a") then .green
      else if jsStartsWith hexColor "#0" then .blue
      else .black
  | none => .black

/-- Fill-colour classifier of `renderShapeComponent` (source lines 302-335):
applied to `component.style?.backgroundColor`; absent, empty, `"transparent"`
and unmatched input give grey. -/
def classifyFillColor (c : Option String) : TldrawColor :=
  match c with
  | some col =>
    if col = "" || col = "transparent" then .grey
    else
      let hexColor := jsToLower col
      if hexColor = "#000000" then .black
      else if hexColor = "#ffffff" then .grey
      else if hexColor = "#ed7d31" then .orange
      else if hexColor = "#4472c4" then .blue
      else if hexColor = "#5b9bd5" then .lightBlue
      else if hexColor = "#70ad47" then .green
      else if hexColor = "#ffc000" then .yellow
      else if hexColor = "#c55a5a" then .red
      else if jsStartsWith hexColor "#ed" || jsStartsWith hexColor "#e9"
          || (jsStartsWith hexColor "#f" && !jsIncl hexColor "ff") then .orange
      else if jsStartsWith hexColor "#44" || jsStartsWith hexColor "#45" then .blue
      else if jsStartsWith hexColor "#5b" || jsStartsWith hexColor "#5a" then .lightBlue
      else if jsStartsWith hexColor "#70" || jsStartsWith hexColor "#6"
          || jsStartsWith hexColor "#4e" then .green
      else if jsStartsWith hexColor "#ff" && jsIncl hexColor "c" then .yellow
      else if jsStartsWith hexColor "#ff" && !jsIncl hexColor "c" then .red
      else if jsStartsWith hexColor "#c5" || jsIncl hexColor "red" then .red
      else if jsStartsWith hexColor "#e7" || jsStartsWith hexColor "#a5" then .grey
      else if jsStartsWith hexColor "#4" then .blue
      else if jsStartsWith hexColor "#5" then .lightBlue
      else if jsStartsWith hexColor "#7" || jsStartsWith hexColor "#6" then .green
      else if jsStartsWith hexColor "#e" || jsStartsWith hexColor "#f" then .orange
      else .grey
  | none => .grey

/-- Stroke-colour classifier of `renderShapeComponent` (source lines 337-370):
applied to `component.style?.borderColor`; absent, empty, `"transparent"`
and unmatched input give black. -/
def classifyStrokeColor (c : Option String) : TldrawColor :=
  match c with
  | some col =>
    if col = "" || col = "transparent" then .black
    else
      let hexColor := jsToLower col
      if hexColor = "#000000" then .black
      else if hexColor = "#ffffff" then .grey
      else if hexColor = "#ed7d31" then .orange
      else if hexColor = "#4472c4" then .blue
      else if hexColor = "#5b9bd5" then .lightBlue
      else if hexColor = "#70ad47" then .green
      else if hexColor = "#ffc000" then .yellow
      else if hexColor = "#c55a5a" then .red
      else if jsStartsWith hexColor "#ed" || jsStartsWith hexColor "#e9"
          || (jsStartsWith hexColor "#f" && !jsIncl hexColor "ff") then .orange
      else if jsStartsWith hexColor "#44" || jsStartsWith hexColor "#45" then .blue
      else if jsStartsWith hexColor "#5b" || jsStartsWith hexColor "#5a" then .lightBlue
      else if jsStartsWith hexColor "#70" || jsStartsWith hexColor "#6"
          || jsStartsWith hexColor "#4e" then .green
      else if jsStartsWith hexColor "#ff" && jsIncl hexColor "c" then .yellow
      else if jsStartsWith hexColor "#ff" && !jsIncl hexColor "c" then .red
      else if jsStartsWith hexColor "#c5" || jsIncl hexColor "red" then .red
      else if jsStartsWith hexColor "#e7" || jsStartsWith hexColor "#a5" then .grey
      else if jsStartsWith hexColor "#4" then .blue
      else if jsStartsWith hexColor "#5" then .lightBlue
      else if jsStartsWith hexColor "#7" || jsStartsWith hexColor "#6" then .green
      else if jsStartsWith hexColor "#e" || jsStartsWith hexColor "#f" then .orange
      else .black
  | none => .black

/-- Font-family classifier of `renderTextComponent` (source lines 227-243). -/
def classifyFont (f : Option String) : TldrawFont :=
  match f with
  | some fam =>
    if fam = "" then .sans
    else
      let fontFamily := jsToLower fam
      if jsIncl fontFamily "times" || jsIncl fontFamily "georgia"
          || jsIncl fontFamily "serif" then .serif
      else if jsIncl fontFamily "courier" || jsIncl fontFamily "consolas"
          || jsIncl fontFamily "monaco" || jsIncl fontFamily "mono" then .mono
      else if jsIncl fontFamily "comic" || jsIncl fontFamily "marker"
          || jsIncl fontFamily "sketch" then .draw
      else .sans
  | none => .sans

/-- Font-size classifier of `renderTextComponent` (source lines 192-203):
falsy (absent, `0`, `NaN`) size gives the default `m`. -/
def classifySize (fs : Option JSNum) : TldrawSize :=
  match fs with
  | some v =>
    if !v.truthy then .m
    else if v.le 10 then .s
    else if v.le 13 then .s
    else if v.le 18 then .m
    else if v.le 23 then .l
    else .xl
  | none => .m

/-- Shape-type classifier of `renderShapeComponent` (source lines 379-452):
case-sensitive exact-match dictionary, defaulting to rectangle. -/
def classifyGeo (shapeType : String) : GeoType :=
  match shapeType with
  | "rect" | "rectangle" => .rectangle
  | "ellipse" | "oval" => .ellipse
  | "triangle" | "rtTriangle" => .triangle
  | "diamond" => .diamond
  | "pentagon" => .pentagon
  | "hexagon" => .hexagon
  | "octagon" => .octagon
  | "star4" | "star5" | "star6" | "star8" | "star10" | "star12" | "star16"
  | "star24" | "star32"
  | "4-point star" | "5-point star" | "6-point star" | "8-point star"
  | "10-point star" | "12-point star" | "16-point star" | "24-point star"
  | "32-point star" => .star
  | "rightArrow" | "right arrow" => .arrowRight
  | "leftArrow" | "left arrow" => .arrowLeft
  | "upArrow" | "up arrow" => .arrowUp
  | "downArrow" | "down arrow" => .arrowDown
  | "trapezoid" => .trapezoid
  | "cloud" => .cloud
  | "heart" => .heart
  | _ => .rectangle

/-- Model of tldraw `toRichText`: the rich-text payload is identified with the
plain text it carries. -/
def toRichText (s : String) : String := s

/-- Output unit: one create-shape call. -/
inductive ShapeDesc where
  | frame (id : String) (x y w h : JSNum) (name : String)
  | text (id : String) (parentId : Option String) (x y rotation : JSNum)
      (richText : String) (color : TldrawColor) (size : TldrawSize)
      (font : TldrawFont) (autoSize : Option Bool) (w : Option JSNum)
  | geo (id : String) (parentId : Option String) (x y rotation : JSNum)
      (geoKind : GeoType) (color : TldrawColor) (fill : FillStyle)
      (size : TldrawSize) (w h : JSNum)
  | image (id : String) (parentId : Option String) (x y rotation : JSNum)
      (assetId : String) (w h : JSNum)
deriving DecidableEq, Repr

/-- One create-asset call (id comes from tldraw's random id generator). -/
structure AssetRec where
  id : String
  name : String
  src : String
  w : JSNum
  h : JSNum
  mimeType : String
  isAnimated : Bool
deriving DecidableEq, Repr

/-- The identifier carried by a shape descriptor. -/
def ShapeDesc.idOf : ShapeDesc → String
  | .frame i _ _ _ _ _ => i
  | .text i _ _ _ _ _ _ _ _ _ _ => i
  | .geo i _ _ _ _ _ _ _ _ _ _ => i
  | .image i _ _ _ _ _ _ _ => i

/-- The x position carried by a shape descriptor. -/
def ShapeDesc.xOf : ShapeDesc → JSNum
  | .frame _ x _ _ _ _ => x
  | .text _ _ x _ _ _ _ _ _ _ _ => x
  | .geo _ _ x _ _ _ _ _ _ _ _ => x
  | .image _ _ x _ _ _ _ _ => x

/-- The y position carried by a shape descriptor. -/
def ShapeDesc.yOf : ShapeDesc → JSNum
  | .frame _ _ y _ _ _ => y
  | .text _ _ _ y _ _ _ _ _ _ _ => y
  | .geo _ _ _ y _ _ _ _ _ _ _ => y
  | .image _ _ _ y _ _ _ _ => y

/-- The rotation carried by a shape descriptor (frames carry none: `0`). -/
def ShapeDesc.rotOf : ShapeDesc → JSNum
  | .frame _ _ _ _ _ _ => 0
  | .text _ _ _ _ r _ _ _ _ _ _ => r
  | .geo _ _ _ _ r _ _ _ _ _ _ => r
  | .image _ _ _ _ r _ _ _ => r

/-- Frame width/height, for frame descriptors. -/
def ShapeDesc.frameSizeOf : ShapeDesc → Option (JSNum × JSNum)
  | .frame _ _ _ w h _ => some (w, h)
  | _ => none

/-- Colour, for text/geo descriptors. -/
def ShapeDesc.colorOf : ShapeDesc → Option TldrawColor
  | .text _ _ _ _ _ _ c _ _ _ _ => some c
  | .geo _ _ _ _ _ _ c _ _ _ _ => some c
  | _ => none

/-- Fill style, for geo descriptors. -/
def ShapeDesc.fillOf : ShapeDesc → Option FillStyle
  | .geo _ _ _ _ _ _ _ f _ _ _ => some f
  | _ => none

/-- Whether a descriptor is a geo shape. -/
def ShapeDesc.isGeo : ShapeDesc → Bool
  | .geo _ _ _ _ _ _ _ _ _ _ _ => true
  | _ => false

/-- Whether a descriptor is a text shape. -/
def ShapeDesc.isText : ShapeDesc → Bool
  | .text _ _ _ _ _ _ _ _ _ _ _ => true
  | _ => false

/-- Erase the (random) asset-record reference from a descriptor. -/
def ShapeDesc.stripAsset : ShapeDesc → ShapeDesc
  | .image i p x y r _ w h => .image i p x y r "" w h
  | d => d

/-- Erase the (random) identifier from an asset record. -/
def AssetRec.stripId (a : AssetRec) : AssetRec := { a with id := "" }

/-- Host environment: the `Math` trigonometric functions and the outcome of
`await fetch(dataUrl)` / `await response.blob()` for a given data URL
(`fetchOk url = false` models the fetch throwing; `blobMime` is the blob's
MIME type, `none` modelling a throw at the blob step).  Data-URI decoding is
deterministic, so these are fixed functions of the URL. -/
structure JsEnv where
  cos : JSNum → JSNum
  sin : JSNum → JSNum
  fetchOk : String → Bool
  blobMime : String → Option String

/-- `component.id || index`: the identifier key used in every shape id
template — the component's id when truthy, else the decimal rendering of its
position in the zIndex-sorted list. -/
def idKey (c : Component) (index : Nat) : String :=
  match c.id with
  | some s => if s = "" then natToString index else s
  | none => natToString index

/-- Frame-relative or absolute x: `frameId ? (component.x || 0) * scale :
frameX + (component.x || 0) * scale` with `scale = 1`. -/
def posX (c : Component) (frameX : JSNum) (frameId : Option String) : JSNum :=
  match frameId with
  | some _ => (numOr c.x 0).mul 1
  | none => frameX.add ((numOr c.x 0).mul 1)

/-- Same for y. -/
def posY (c : Component) (frameY : JSNum) (frameId : Option String) : JSNum :=
  match frameId with
  | some _ => (numOr c.y 0).mul 1
  | none => frameY.add ((numOr c.y 0).mul 1)

/-- `component.rotation ? (component.rotation * Math.PI) / 180 : 0`. -/
def rotField (c : Component) : JSNum :=
  match c.rotation with
  | some r => if r.truthy then (r.mul jsPI).div 180 else 0
  | none => 0

/-- `renderTextComponent` (source lines 158-278): emits one text shape. -/
def renderTextComponent (env : JsEnv) (c : Component) (index : Nat)
    (frameX frameY : JSNum) (slideIndex : Nat) (frameId : Option String) :
    ShapeDesc :=
  let shapeId := "text-" ++ natToString slideIndex ++ "-" ++ idKey c index
  let x0 := posX c frameX frameId
  let y0 := posY c frameY frameId
  let rotGuard := match c.rotation with
    | some r => r.truthy && decide (r ≠ JSNum.finite 0)
    | none => false
  let pos :=
    if rotGuard then
      let width := numOr c.width 0
      let height := numOr c.height 0
      let angleRad := ((numNullish c.rotation 0).mul jsPI).div 180
      let originalCenterX := x0.add (width.div 2)
      let originalCenterY := y0.add (height.div 2)
      let newX := (originalCenterX.sub ((width.div 2).mul (env.cos angleRad))).add
        ((height.div 2).mul (env.sin angleRad))
      let newY := (originalCenterY.sub ((width.div 2).mul (env.sin angleRad))).sub
        ((height.div 2).mul (env.cos angleRad))
      (newX, newY)
    else (x0, y0)
  let tldrawSize := classifySize c.styleFontSize
  let tldrawColor := classifyTextColor c.styleColor
  let tldrawFont := classifyFont c.styleFontFamily
  let richTextContent := match c.richText with
    | some rt => rt
    | none => toRichText (strOr c.content "Sample text")
  let widthTruthy := match c.width with
    | some w => w.truthy
    | none => false
  ShapeDesc.text shapeId frameId pos.1 pos.2 (rotField c) richTextContent
    tldrawColor tldrawSize tldrawFont (some (!widthTruthy))
    (match c.width with
     | some w => if w.truthy then some w else none
     | none => none)

/-- `renderShapeComponent` (source lines 280-489): emits one geo shape. -/
def renderShapeComponent (c : Component) (index : Nat) (frameX frameY : JSNum)
    (slideIndex : Nat) (frameId : Option String) : ShapeDesc :=
  let shapeId := "shape-" ++ natToString slideIndex ++ "-" ++ idKey c index
  let x := posX c frameX frameId
  let y := posY c frameY frameId
  let width := (numOr c.width 100).mul 1
  let height := (numOr c.height 100).mul 1
  let fillColor := classifyFillColor c.styleBg
  let strokeColor := classifyStrokeColor c.styleBorder
  let shapeType := strOr c.styleShapeType
    (strOr c.mdShapeType (strOr c.mdPreset "rectangle"))
  let geoType := classifyGeo shapeType
  let finalColor := if fillColor = .grey then strokeColor else fillColor
  let bgGuard := match c.styleBg with
    | some s => !(s = "") && !(s = "transparent")
    | none => false
  let finalFill := if bgGuard then FillStyle.solid else FillStyle.noFill
  ShapeDesc.geo shapeId frameId x y (rotField c) geoType finalColor finalFill
    .m width height

/-- `renderImageComponent` (source lines 491-614): one image shape plus one
asset on success, one placeholder geo otherwise.  Returns the created shapes,
the created assets, and the number of `await`s reached (`fetch` and
`response.blob()`). -/
def renderImageComponent (env : JsEnv) (gen : Nat → String) (assetCtr : Nat)
    (c : Component) (index : Nat) (frameX frameY : JSNum) (slideIndex : Nat)
    (frameId : Option String) : List ShapeDesc × List AssetRec × Nat :=
  let imageId := "image-" ++ natToString slideIndex ++ "-" ++ idKey c index
  let placeholderId := "placeholder-" ++ natToString slideIndex ++ "-" ++ idKey c index
  let x := posX c frameX frameId
  let y := posY c frameY frameId
  let width := numOr c.width 200
  let height := numOr c.height 150
  let placeholder :=
    ShapeDesc.geo placeholderId frameId x y 0 .rectangle .grey .pattern .m width height
  match c.mdImageUrl with
  | some url =>
    if url = "" then ([placeholder], [], 0)
    else if jsStartsWith url "data:" then
      if env.fetchOk url then
        match env.blobMime url with
        | some mime =>
          let assetId := gen assetCtr
          ([ShapeDesc.image imageId frameId x y (rotField c) assetId width height],
           [{ id := assetId, name := strOr c.mdName "image", src := url,
              w := width, h := height, mimeType := mime, isAnimated := false }], 2)
        | none => ([placeholder], [], 2)
      else ([placeholder], [], 1)
    else ([placeholder], [], 0)
  | none => ([placeholder], [], 0)

/-- Indexed iteration from a starting index (the `for` loops with an index the
source uses over rows, cells and sorted components). -/
def enumF : Nat → List α → List (Nat × α)
  | _, [] => []
  | i, a :: as => (i, a) :: enumF (i + 1) as

/-- `renderTableComponent` (source lines 616-726): one solid cell-background
geo per cell of each row of `tableData`, plus one small text shape per cell
with non-blank content. -/
def renderTableComponent (c : Component) (index : Nat) (frameX frameY : JSNum)
    (slideIndex : Nat) (frameId : Option String) : List ShapeDesc :=
  let tableData := c.mdTableData
  let rows := numOr c.mdRows (.finite tableData.length)
  let cols := numOr c.mdCols
    (.finite (match tableData.head? with | some r => (r.length : ℚ) | none => 0))
  if tableData.isEmpty then []
  else
    let tableWidth := numOr c.width 300
    let tableHeight := numOr c.height 150
    let cellWidth := tableWidth.div cols
    let cellHeight := tableHeight.div rows
    let tableX := posX c frameX frameId
    let tableY := posY c frameY frameId
    (enumF 0 tableData).flatMap fun rc =>
      (enumF 0 rc.2).flatMap fun cc =>
        let rowIndex := rc.1
        let colIndex := cc.1
        let cellContent := cc.2
        let cellX := tableX.add ((JSNum.finite colIndex).mul cellWidth)
        let cellY := tableY.add ((JSNum.finite rowIndex).mul cellHeight)
        let cellRectId := "table-" ++ natToString slideIndex ++ "-" ++ idKey c index
          ++ "-cell-bg-" ++ natToString rowIndex ++ "-" ++ natToString colIndex
        let isHeader := decide (rowIndex = 0) && c.mdHasHeader
        let fillColor := if isHeader then TldrawColor.blue else TldrawColor.lightBlue
        let bg := ShapeDesc.geo cellRectId frameId cellX cellY 0 .rectangle
          fillColor .solid .s cellWidth cellHeight
        if jsTrim cellContent = "" then [bg]
        else
          let cellTextId := "table-" ++ natToString slideIndex ++ "-" ++ idKey c index
            ++ "-cell-text-" ++ natToString rowIndex ++ "-" ++ natToString colIndex
          let textX := cellX.add 8
          let textY := (cellY.add (cellHeight.div 2)).sub 6
          [bg, ShapeDesc.text cellTextId frameId textX textY 0
            (toRichText cellContent) .black .s .sans none none]

/-- The zIndex comparator `(a.zIndex ?? 0) - (b.zIndex ?? 0)` as the relation
"sorts not after": nonpositive comparator result (ES treats a `NaN`
comparator value as `0`). -/
def zSortLe (a b : Component) : Bool :=
  match (numNullish a.zIndex 0).sub (numNullish b.zIndex 0) with
  | .finite q => decide (q ≤ 0)
  | .negInf => true
  | .posInf => false
  | .nan => true

/-- Stable insertion used to model the (stable) `Array.prototype.sort`. -/
def insertByZ (c : Component) : List Component → List Component
  | [] => [c]
  | d :: ds => if zSortLe c d then c :: d :: ds else d :: insertByZ c ds

/-- `[...components].sort((a, b) => (a.zIndex ?? 0) - (b.zIndex ?? 0))`:
a stable sort by zIndex. -/
def sortByZ : List Component → List Component
  | [] => []
  | c :: cs => insertByZ c (sortByZ cs)

/-- The dispatcher's per-component switch (source lines 139-154): route by
`type`, skipping unknown types. -/
def renderComponent (env : JsEnv) (gen : Nat → String) (assetCtr : Nat)
    (c : Component) (index : Nat) (frameX frameY : JSNum) (slideIndex : Nat)
    (frameId : Option String) : List ShapeDesc × List AssetRec × Nat :=
  match c.type with
  | "text" =>
    ([renderTextComponent env c index frameX frameY slideIndex frameId], [], 0)
  | "shape" =>
    ([renderShapeComponent c index frameX frameY slideIndex frameId], [], 0)
  | "image" =>
    renderImageComponent env gen assetCtr c index frameX frameY slideIndex frameId
  | "table" =>
    (renderTableComponent c index frameX frameY slideIndex frameId, [], 0)
  | _ => ([], [], 0)

/-- Sequential loop over the indexed sorted components, threading the count of
assets created so far (tldraw allocates one fresh asset id per created
asset). -/
def renderLoop (env : JsEnv) (gen : Nat → String) (assetCtr : Nat)
    (l : List (Nat × Component)) (frameX frameY : JSNum) (slideIndex : Nat)
    (frameId : Option String) : List ShapeDesc × List AssetRec :=
  match l with
  | [] => ([], [])
  | (i, c) :: rest =>
    let r := renderComponent env gen assetCtr c i frameX frameY slideIndex frameId
    let rr := renderLoop env gen (assetCtr + r.2.1.length) rest frameX frameY
      slideIndex frameId
    (r.1 ++ rr.1, r.2.1 ++ rr.2)

/-- `drawComponentsInFrame` (source lines 128-156): sort by zIndex, then
render each component in order. -/
def drawComponentsInFrame (env : JsEnv) (gen : Nat → String) (assetCtr : Nat)
    (components : List Component) (frameX frameY : JSNum) (slideIndex : Nat)
    (frameId : Option String) : List ShapeDesc × List AssetRec :=
  renderLoop env gen assetCtr (enumF 0 (sortByZ components)) frameX frameY
    slideIndex frameId

/-- `calculateComponentBounds` (source lines 109-126): per-slide maxima of
`(x||0)+(width||0)` and `(y||0)+(height||0)`, from 0 (the early return for an
empty list coincides with the fold from `(0, 0)`). -/
def calculateComponentBounds (components : List Component) : JSNum × JSNum :=
  components.foldl
    (fun acc comp =>
      let compMaxX := (numOr comp.x 0).add (numOr comp.width 0)
      let compMaxY := (numOr comp.y 0).add (numOr comp.height 0)
      (if compMaxX.gt acc.1 then compMaxX else acc.1,
       if compMaxY.gt acc.2 then compMaxY else acc.2))
    (0, 0)

/-- The per-slide body of `drawSlides` (source lines 53-84): grid placement,
one frame per slide, then the slide's components inside the frame. -/
def slidesLoop (env : JsEnv) (gen : Nat → String) (maxW maxH : JSNum)
    (assetCtr : Nat) (slideIndex : Nat) :
    List Slide → List ShapeDesc × List AssetRec
  | [] => ([], [])
  | slide :: rest =>
    let col := slideIndex % 4
    let row := slideIndex / 4
    let slideX := ((JSNum.finite col).mul (maxW.add 200)).add 50
    let slideY := ((JSNum.finite row).mul (maxH.add 200)).add 50
    let frameId := "slide-frame-" ++ natToString slideIndex
    let frame := ShapeDesc.frame frameId slideX slideY maxW maxH
      (strOr slide.name ("Slide " ++ natToString slide.slideNumber))
    let r := drawComponentsInFrame env gen assetCtr slide.components slideX slideY
      slideIndex (some frameId)
    let rr := slidesLoop env gen maxW maxH (assetCtr + r.2.length) (slideIndex + 1) rest
    (frame :: r.1 ++ rr.1, r.2 ++ rr.2)

/-- `drawSlides` (source lines 25-90): uniform frame size across slides, then
the per-slide loop.  Returns all created shapes and assets in creation
order. -/
def drawSlides (env : JsEnv) (gen : Nat → String) (slides : List Slide) :
    List ShapeDesc × List AssetRec :=
  if slides.isEmpty then ([], [])
  else
    let maxW := slides.foldl
      (fun acc s => acc.max2 ((calculateComponentBounds s.components).1.add 50)) 1280
    let maxH := slides.foldl
      (fun acc s => acc.max2 ((calculateComponentBounds s.components).2.add 50)) 720
    slidesLoop env gen maxW maxH 0 0 slides

/-- `drawComponents` (source lines 92-107), the legacy frameless path. -/
def drawComponents (env : JsEnv) (gen : Nat → String)
    (components : List Component) : List ShapeDesc × List AssetRec :=
  if components.isEmpty then ([], [])
  else drawComponentsInFrame env gen 0 components 0 0 0 none

/-- Abstract form of a shape identifier: the kind of template the source
builds it from, together with the data interpolated into the template. -/
inductive Tag where
  | frame (s : Nat)
  | text (s : Nat) (k : String)
  | geo (s : Nat) (k : String)
  | image (s : Nat) (k : String)
  | placeholder (s : Nat) (k : String)
  | cellBg (s : Nat) (k : String) (r c : Nat)
  | cellText (s : Nat) (k : String) (r c : Nat)
deriving DecidableEq, Repr

/-- The identifier string each template produces. -/
def renderTagId : Tag → String
  | .frame s => "slide-frame-" ++ natToString s
  | .text s k => "text-" ++ natToString s ++ "-" ++ k
  | .geo s k => "shape-" ++ natToString s ++ "-" ++ k
  | .image s k => "image-" ++ natToString s ++ "-" ++ k
  | .placeholder s k => "placeholder-" ++ natToString s ++ "-" ++ k
  | .cellBg s k r c =>
    "table-" ++ natToString s ++ "-" ++ k ++ "-cell-bg-"
      ++ natToString r ++ "-" ++ natToString c
  | .cellText s k r c =>
    "table-" ++ natToString s ++ "-" ++ k ++ "-cell-text-"
      ++ natToString r ++ "-" ++ natToString c

/-- The dash-separated tokens of the identifier a tag renders to (valid when
the key is dash-free). -/
def tagTokens : Tag → List (List Char)
  | .frame s => ["slide".data, "frame".data, natDigits s]
  | .text s k => ["text".data, natDigits s, k.data]
  | .geo s k => ["shape".data, natDigits s, k.data]
  | .image s k => ["image".data, natDigits s, k.data]
  | .placeholder s k => ["placeholder".data, natDigits s, k.data]
  | .cellBg s k r c =>
    ["table".data, natDigits s, k.data, "cell".data, "bg".data,
     natDigits r, natDigits c]
  | .cellText s k r c =>
    ["table".data, natDigits s, k.data, "cell".data, "text".data,
     natDigits r, natDigits c]

/-- The slide index a tag belongs to. -/
def Tag.slideOf : Tag → Nat
  | .frame s => s
  | .text s _ => s
  | .geo s _ => s
  | .image s _ => s
  | .placeholder s _ => s
  | .cellBg s _ _ _ => s
  | .cellText s _ _ _ => s

/-- The id-or-index key a tag carries (frames carry none: `""`). -/
def Tag.keyOf : Tag → String
  | .frame _ => ""
  | .text _ k => k
  | .geo _ k => k
  | .image _ k => k
  | .placeholder _ k => k
  | .cellBg _ k _ _ => k
  | .cellText _ k _ _ => k

/-- A tag is admissible when its key contains no dash. -/
def Tag.okKey (t : Tag) : Prop := '-' ∉ t.keyOf.data

/-- The tags of the identifiers `renderTableComponent` emits. -/
def tagsOfTable (c : Component) (index slideIndex : Nat) : List Tag :=
  let tableData := c.mdTableData
  if tableData.isEmpty then []
  else
    (enumF 0 tableData).flatMap fun rc =>
      (enumF 0 rc.2).flatMap fun cc =>
        if jsTrim cc.2 = "" then [Tag.cellBg slideIndex (idKey c index) rc.1 cc.1]
        else [Tag.cellBg slideIndex (idKey c index) rc.1 cc.1,
              Tag.cellText slideIndex (idKey c index) rc.1 cc.1]

/-- The tags of the identifiers one dispatched component emits. -/
def tagsOfComp (env : JsEnv) (c : Component) (index slideIndex : Nat) : List Tag :=
  match c.type with
  | "text" => [Tag.text slideIndex (idKey c index)]
  | "shape" => [Tag.geo slideIndex (idKey c index)]
  | "image" =>
    (match c.mdImageUrl with
     | some url =>
       if url = "" then [Tag.placeholder slideIndex (idKey c index)]
       else if jsStartsWith url "data:" then
         if env.fetchOk url then
           match env.blobMime url with
           | some _ => [Tag.image slideIndex (idKey c index)]
           | none => [Tag.placeholder slideIndex (idKey c index)]
         else [Tag.placeholder slideIndex (idKey c index)]
       else [Tag.placeholder slideIndex (idKey c index)]
     | none => [Tag.placeholder slideIndex (idKey c index)])
  | "table" => tagsOfTable c index slideIndex
  | _ => []

/-- The tags of the identifiers a list of indexed components emits. -/
def tagsOfComps (env : JsEnv) (l : List (Nat × Component)) (slideIndex : Nat) :
    List Tag :=
  l.flatMap fun ic => tagsOfComp env ic.2 ic.1 slideIndex

/-- The tags of all identifiers `slidesLoop` emits. -/
def tagsOfSlides (env : JsEnv) (slideIndex : Nat) : List Slide → List Tag
  | [] => []
  | s :: rest =>
    Tag.frame slideIndex
      :: (tagsOfComps env (enumF 0 (sortByZ s.components)) slideIndex
          ++ tagsOfSlides env (slideIndex + 1) rest)

/-- Whether an optional numeric field is finite-or-missing. -/
def finOkB : Option JSNum → Bool
  | none => true
  | some (.finite _) => true
  | some _ => false

/-- The rational value of a finite-or-missing field, missing read as 0. -/
def qOf : Option JSNum → ℚ
  | some (.finite q) => q
  | _ => 0

/-- All four geometric fields of a component are finite-or-missing. -/
def Component.geomOk (c : Component) : Bool :=
  finOkB c.x && finOkB c.y && finOkB c.width && finOkB c.height

/-- The component's zIndex is finite-or-missing. -/
def Component.zOk (c : Component) : Bool := finOkB c.zIndex

/-- The rational zIndex key (missing read as 0). -/
def zQ (c : Component) : ℚ := qOf c.zIndex

/-- The component's id, when present, contains no dash. -/
def Component.idOk (c : Component) : Bool :=
  match c.id with
  | some s => decide ('-' ∉ s.data)
  | none => true

/-- No two components of the same type in the zIndex-sorted list share the
same id-or-index key. -/
def KeysDistinct (comps : List Component) : Prop :=
  (enumF 0 (sortByZ comps)).Pairwise
    (fun a b => a.2.type = b.2.type → idKey a.2 a.1 ≠ idKey b.2 b.1)

/-- Claim-side formula: per-slide maximum of `x + width` (missing fields
contribute 0, the empty slide contributes 0). -/
def slideMaxX (s : Slide) : ℚ :=
  (s.components.map (fun c => qOf c.x + qOf c.width)).foldr max 0

/-- Claim-side formula: per-slide maximum of `y + height`. -/
def slideMaxY (s : Slide) : ℚ :=
  (s.components.map (fun c => qOf c.y + qOf c.height)).foldr max 0

/-- Claim-side formula for the uniform frame width:
`max(1280, max over slides of slideMaxX + 50)`. -/
def claimFrameW (slides : List Slide) : ℚ :=
  max 1280 ((slides.map slideMaxX).foldr max 0 + 50)

/-- Claim-side formula for the uniform frame height:
`max(720, max over slides of slideMaxY + 50)`. -/
def claimFrameH (slides : List Slide) : ℚ :=
  max 720 ((slides.map slideMaxY).foldr max 0 + 50)

/-- The shared rule cascade of the fill and stroke classifiers (source lines
307-329 and 342-364 are textually identical): the value of the first matching
rule, or `none` when only the terminal default would apply. -/
def colorCascade (hexColor : String) : Option TldrawColor :=
  if hexColor = "#000000" then some .black
  else if hexColor = "#ffffff" then some .grey
  else if hexColor = "#ed7d31" then some .orange
  else if hexColor = "#4472c4" then some .blue
  else if hexColor = "#5b9bd5" then some .lightBlue
  else if hexColor = "#70ad47" then some .green
  else if hexColor = "#ffc000" then some .yellow
  else if hexColor = "#c55a5a" then some .red
  else if jsStartsWith hexColor "#ed" || jsStartsWith hexColor "#e9"
      || (jsStartsWith hexColor "#f" && !jsIncl hexColor "ff") then some .orange
  else if jsStartsWith hexColor "#44" || jsStartsWith hexColor "#45" then some .blue
  else if jsStartsWith hexColor "#5b" || jsStartsWith hexColor "#5a" then some .lightBlue
  else if jsStartsWith hexColor "#70" || jsStartsWith hexColor "#6"
      || jsStartsWith hexColor "#4e" then some .green
  else if jsStartsWith hexColor "#ff" && jsIncl hexColor "c" then some .yellow
  else if jsStartsWith hexColor "#ff" && !jsIncl hexColor "c" then some .red
  else if jsStartsWith hexColor "#c5" || jsIncl hexColor "red" then some .red
  else if jsStartsWith hexColor "#e7" || jsStartsWith hexColor "#a5" then some .grey
  else if jsStartsWith hexColor "#4" then some .blue
  else if jsStartsWith hexColor "#5" then some .lightBlue
  else if jsStartsWith hexColor "#7" || jsStartsWith hexColor "#6" then some .green
  else if jsStartsWith hexColor "#e" || jsStartsWith hexColor "#f" then some .orange
  else none

/-- Whether a colour input hits any rule of the shared cascade before the
terminal default (under the truthiness/`"transparent"` entry guard). -/
def hexMatchesNonDefault (c : Option String) : Bool :=
  match c with
  | some col =>
    if col = "" || col = "transparent" then false
    else (colorCascade (jsToLower col)).isSome
  | none => false

/-- Row-major cell indices `(rowIndex, colIndex)` of a grid of rows. -/
def gridIdx (rs : List (List String)) : List (Nat × Nat) :=
  (enumF 0 rs).flatMap fun rc => (enumF 0 rc.2).map fun cc => (rc.1, cc.1)

/-- A concrete host environment for concrete evaluations. -/
def exEnv : JsEnv :=
  ⟨fun _ => .nan, fun _ => .nan, fun _ => true, fun _ => some "image/png"⟩

/-- A concrete asset-id generator for concrete evaluations. -/
def exGen : Nat → String := fun n => "asset-" ++ natToString n

/-- An image component whose URL is not a data URI. -/
def exImageHttp : Component :=
  { id := some "i", type := "image", x := some (.finite 5),
    metadata := some { imageUrl := some "http://x.png" } }

/-- A text component with id `a` at x = 10. -/
def exTextA : Component := { id := some "a", type := "text", x := some (.finite 10) }

/-- A second text component with the same id `a` at x = 20. -/
def exTextB : Component := { id := some "a", type := "text", x := some (.finite 20) }

/-- A one-slide document holding two text components that share an id. -/
def exDocDup : List Slide := [{ slideNumber := 1, components := [exTextA, exTextB] }]

/-- A two-slide document exercising every component type with distinct keys. -/
def exDocOk : List Slide :=
  [{ slideNumber := 1,
     components :=
       [{ id := some "t1", type := "text" },
        { id := none, type := "shape" },
        { id := some "im", type := "image" },
        { id := some "tb", type := "table",
          metadata := some { tableData := some [["x", ""], ["y", "z"]] } }] },
   { slideNumber := 2, components := [{ id := some "t1", type := "text" }] }]

/-- Component `A` of the stacking-order example, zIndex 3. -/
def exCompA : Component := { id := some "A", type := "text", zIndex := some (.finite 3) }

/-- Component `B` of the stacking-order example, zIndex 1. -/
def exCompB : Component := { id := some "B", type := "text", zIndex := some (.finite 1) }

/-- Component `C` of the stacking-order example, zIndex 2. -/
def exCompC : Component := { id := some "C", type := "text", zIndex := some (.finite 2) }

/-- A shape reaching (1400, 800). -/
def exBig : Component :=
  { id := some "b", type := "shape", x := some (.finite 1000), y := some (.finite 500),
    width := some (.finite 400), height := some (.finite 300) }

/-- The uniform-frame-size example: one slide reaching (1400, 800) and one
empty slide. -/
def exDocFrames : List Slide :=
  [{ slideNumber := 1, components := [exBig] },
   { slideNumber := 2, components := [] }]

/-- A 3 × 2 table with two blank cells. -/
def exTable32 : Component :=
  { id := some "t", type := "table",
    width := some (.finite 300), height := some (.finite 150),
    metadata := some
      { tableData := some [["a", "b"], ["", "c"], ["d", "  "]],
        rows := some (.finite 3), cols := some (.finite 2) } }

/-- A table whose metadata advertises 5 × 7 cells while `tableData` holds a
single one-cell row. -/
def exTableBad : Component :=
  { id := some "t", type := "table",
    metadata := some
      { tableData := some [["a"]], rows := some (.finite 5), cols := some (.finite 7) } }

/-- A text component at (100, 100), size (50, 20), rotated 90 degrees. -/
def exTextRot : Component :=
  { id := some "r", type := "text", x := some (.finite 100), y := some (.finite 100),
    width := some (.finite 50), height := some (.finite 20),
    rotation := some (.finite 90) }

/-- A shape component rotated 90 degrees. -/
def exShapeRot : Component :=
  { id := some "s", type := "shape", x := some (.finite 10), y := some (.finite 20),
    width := some (.finite 30), height := some (.finite 40),
    rotation := some (.finite 90) }

/-- An image component rotated 90 degrees with no image URL. -/
def exImageRot : Component :=
  { id := some "p", type := "image", rotation := some (.finite 90) }

/-- A table whose first row is empty and whose metadata gives no column
count, so the derived `cols` is 0. -/
def exTableDiv0 : Component :=
  { id := some "z", type := "table",
    metadata := some { tableData := some [[], ["a"]] } }

/-- Concatenate dash-separated groups back into one character list (the
inverse of `splitDash`). -/
def joinDash : List (List Char) → List Char
  | [] => []
  | [g] => g
  | g :: gs => g ++ '-' :: joinDash gs

/-- A text component whose id contains a dash. -/
def exTextDash : Component := { id := some "a-b", type := "text" }

/-- A table component whose id contains a dash. -/
def exTableDash : Component :=
  { id := some "x-1", type := "table",
    metadata := some { tableData := some [["u"]] } }

/-- A document whose component ids contain dashes: identifier uniqueness must
still hold for it. -/
def exDocDash : List Slide :=
  [{ slideNumber := 1,
     components := [exTextDash, { id := some "a", type := "text" },
       exTableDash] }]

/-! Helper lemmas. -/

/-- Constructor index of a tag. -/
def kindIdx : Tag → Nat
  | .frame _ => 0
  | .text _ _ => 1
  | .geo _ _ => 2
  | .image _ _ => 3
  | .placeholder _ _ => 4
  | .cellBg _ _ _ _ => 5
  | .cellText _ _ _ _ => 6

/-- The tag constructors each component type can emit. -/
def typeFam (ty : String) : List Nat :=
  if ty = "text" then [1]
  else if ty = "shape" then [2]
  else if ty = "image" then [3, 4]
  else if ty = "table" then [5, 6]
  else []

/-- The row/column coordinates carried by a table-cell tag. -/
def cellOf : Tag → Option (Nat × Nat)
  | .cellBg _ _ r c => some (r, c)
  | .cellText _ _ r c => some (r, c)
  | _ => none

theorem jsMul_one (a : JSNum) : a.mul 1 = a := by
  cases a with
  | finite q =>
    show JSNum.finite (q * 1) = JSNum.finite q
    rw [mul_one]
  | posInf => rfl
  | negInf => rfl
  | nan => rfl

theorem natDigitsF_fuel : ∀ f1 f2 n : Nat, n ≤ f1 → n ≤ f2 →
    natDigitsF f1 n = natDigitsF f2 n := by
  intro f1
  induction f1 with
  | zero =>
    intro f2 n h1 h2
    have hn : n = 0 := Nat.le_zero.1 h1
    subst hn
    cases f2 with
    | zero => rfl
    | succ g => simp [natDigitsF]
  | succ f ih =>
    intro f2 n h1 h2
    cases f2 with
    | zero =>
      have hn : n = 0 := Nat.le_zero.1 h2
      subst hn
      simp [natDigitsF]
    | succ g =>
      by_cases h : n < 10
      · simp [natDigitsF, h]
      · simp only [natDigitsF, if_neg h]
        have hd : n / 10 < n := Nat.div_lt_self (by omega) (by omega)
        rw [ih g (n / 10) (by omega) (by omega)]

theorem natDigits_lt {n : Nat} (h : n < 10) : natDigits n = [Nat.digitChar n] := by
  unfold natDigits
  cases n with
  | zero => rfl
  | succ m => simp [natDigitsF, h]

theorem natDigits_ge {n : Nat} (h : ¬ n < 10) :
    natDigits n = natDigits (n / 10) ++ [Nat.digitChar (n % 10)] := by
  unfold natDigits
  have hn : n = (n - 1) + 1 := by omega
  rw [hn]
  simp only [natDigitsF, if_neg (show ¬ (n - 1) + 1 < 10 by omega)]
  have hd : ((n - 1) + 1) / 10 < n := by
    rw [← hn]
    exact Nat.div_lt_self (by omega) (by omega)
  rw [natDigitsF_fuel (n - 1) (((n - 1) + 1) / 10) (((n - 1) + 1) / 10) (by omega)
    (by omega)]

theorem natDigits_ne_nil (n : Nat) : natDigits n ≠ [] := by
  by_cases h : n < 10
  · rw [natDigits_lt h]
    simp
  · rw [natDigits_ge h]
    simp

theorem digitChar_isDigit : ∀ a : Fin 10, (Nat.digitChar a.1).isDigit = true := by decide

theorem natDigits_mem_digit {n : Nat} : ∀ c ∈ natDigits n, c.isDigit = true := by
  induction n using Nat.strong_induction_on with
  | _ n ih =>
    by_cases h : n < 10
    · rw [natDigits_lt h]
      intro c hc
      simp only [List.mem_singleton] at hc
      subst hc
      exact digitChar_isDigit ⟨n, h⟩
    · rw [natDigits_ge h]
      intro c hc
      rcases List.mem_append.1 hc with h1 | h1
      · exact ih (n / 10) (Nat.div_lt_self (by omega) (by omega)) c h1
      · simp only [List.mem_singleton] at h1
        subst h1
        exact digitChar_isDigit ⟨n % 10, Nat.mod_lt _ (by omega)⟩

theorem natDigits_ne_dash {n : Nat} : ∀ c ∈ natDigits n, c ≠ '-' := by
  intro c hc
  have := natDigits_mem_digit c hc
  intro h
  subst h
  simp [Char.isDigit] at this

/-- Injectivity of the digit character on single digits. -/
theorem digitChar_inj_lt : ∀ a : Fin 10, ∀ b : Fin 10,
    Nat.digitChar a.1 = Nat.digitChar b.1 → a = b := by decide

theorem natDigits_inj : ∀ {m n : Nat}, natDigits m = natDigits n → m = n := by
  intro m
  induction m using Nat.strong_induction_on with
  | _ m ih =>
    intro n h
    by_cases hm : m < 10 <;> by_cases hn : n < 10
    · rw [natDigits_lt hm, natDigits_lt hn] at h
      simp only [List.cons.injEq] at h
      have := digitChar_inj_lt ⟨m, hm⟩ ⟨n, hn⟩ h.1
      exact congrArg Fin.val this
    · rw [natDigits_lt hm, natDigits_ge hn] at h
      have h1 : (natDigits (n / 10)).length ≥ 1 :=
        List.length_pos.2 (natDigits_ne_nil _)
      have h2 := congrArg List.length h
      simp only [List.length_singleton, List.length_append] at h2
      omega
    · rw [natDigits_ge hm, natDigits_lt hn] at h
      have h1 : (natDigits (m / 10)).length ≥ 1 :=
        List.length_pos.2 (natDigits_ne_nil _)
      have h2 := congrArg List.length h
      simp only [List.length_singleton, List.length_append] at h2
      omega
    · rw [natDigits_ge hm, natDigits_ge hn] at h
      have h2 := congrArg List.reverse h
      simp only [List.reverse_append, List.reverse_singleton, List.singleton_append,
        List.cons.injEq, List.reverse_inj] at h2
      have hlast : m % 10 = n % 10 := by
        have := digitChar_inj_lt ⟨m % 10, Nat.mod_lt _ (by omega)⟩
          ⟨n % 10, Nat.mod_lt _ (by omega)⟩ h2.1
        exact congrArg Fin.val this
      have hdiv : m / 10 = n / 10 :=
        ih (m / 10) (Nat.div_lt_self (by omega) (by omega)) h2.2
      omega

theorem natToString_inj {m n : Nat} (h : natToString m = natToString n) : m = n :=
  natDigits_inj (congrArg String.data h)
theorem splitDash_ne_nil (l : List Char) : splitDash l ≠ [] := by
  induction l with
  | nil => simp [splitDash]
  | cons c cs ih =>
    rw [splitDash]
    split
    · simp
    · split
      · simp
      · simp

theorem splitDash_append (a b : List Char) (ha : '-' ∉ a) :
    splitDash (a ++ '-' :: b) = a :: splitDash b := by
  induction a with
  | nil => simp [splitDash]
  | cons c cs ih =>
    have hc : c ≠ '-' := by
      intro h
      exact ha (h ▸ List.mem_cons_self c cs)
    have hcs : '-' ∉ cs := fun h => ha (List.mem_cons_of_mem c h)
    rw [List.cons_append, splitDash, if_neg hc, ih hcs]

theorem splitDash_no_dash (a : List Char) (ha : '-' ∉ a) : splitDash a = [a] := by
  induction a with
  | nil => rfl
  | cons c cs ih =>
    have hc : c ≠ '-' := by
      intro h
      exact ha (h ▸ List.mem_cons_self c cs)
    have hcs : '-' ∉ cs := fun h => ha (List.mem_cons_of_mem c h)
    rw [splitDash, if_neg hc, ih hcs]

theorem natDigits_no_dash (n : Nat) : '-' ∉ natDigits n := by
  intro h
  exact natDigits_ne_dash _ h rfl

theorem string_data_append (a b : String) : (a ++ b).data = a.data ++ b.data := rfl
/-- C6: for every image component whose `imageUrl` is absent or not a data
URI, the resolver emits exactly one placeholder rectangle at the image's
position with the image's width/height defaults (200 × 150), registers no
asset, and reaches no `await`. -/
theorem c6_image_fallback (env : JsEnv) (gen : Nat → String) (assetCtr : Nat)
    (c : Component) (index : Nat) (frameX frameY : JSNum) (slideIndex : Nat)
    (frameId : Option String)
    (himg : ∀ url ∈ c.mdImageUrl, jsStartsWith url "data:" = false) :
    renderImageComponent env gen assetCtr c index frameX frameY slideIndex frameId =
      ([ShapeDesc.geo ("placeholder-" ++ natToString slideIndex ++ "-" ++ idKey c index)
          frameId (posX c frameX frameId) (posY c frameY frameId) 0 .rectangle .grey
          .pattern .m (numOr c.width 200) (numOr c.height 150)], [], 0) := by
  unfold renderImageComponent
  match h : c.mdImageUrl with
  | none => simp
  | some url =>
    have hd := himg url (by rw [h]; rfl)
    simp only [hd]
    split <;> simp

/-- Witness for C6 at a concrete component whose `imageUrl` is an `http:`
URL: the resolver yields the 200 × 150 placeholder, no asset, no `await`. -/
theorem c6_image_fallback_witness :
    (∀ url ∈ (exImageHttp).mdImageUrl, jsStartsWith url "data:" = false) ∧
    renderImageComponent exEnv exGen 0 exImageHttp 0 0 0 0 (some "slide-frame-0") =
      ([ShapeDesc.geo "placeholder-0-i" (some "slide-frame-0") (.finite 5) 0 0 .rectangle
          .grey .pattern .m 200 150], [], 0) :=
  ⟨by decide, by
    rw [c6_image_fallback exEnv exGen 0 exImageHttp 0 0 0 0 (some "slide-frame-0")
      (by decide)]
    simp only [posX, posY, jsMul_one]
    decide⟩

/-- C9: the emitted geo descriptor's colour is the mapped stroke colour when
the mapped fill colour is grey (grey covers absent, `"transparent"` and white
backgrounds) and the mapped fill colour otherwise; its fill style is solid
exactly when a backgroundColor is present (non-empty) and not
`"transparent"`, and `'none'` otherwise. -/
theorem c9_geo_color_fill (c : Component) (index : Nat) (frameX frameY : JSNum)
    (slideIndex : Nat) (frameId : Option String) :
    (renderShapeComponent c index frameX frameY slideIndex frameId).colorOf =
      some (if classifyFillColor c.styleBg = .grey then classifyStrokeColor c.styleBorder
            else classifyFillColor c.styleBg) ∧
    ((renderShapeComponent c index frameX frameY slideIndex frameId).fillOf = some .solid ↔
      ∃ s, c.styleBg = some s ∧ s ≠ "" ∧ s ≠ "transparent") ∧
    ((renderShapeComponent c index frameX frameY slideIndex frameId).fillOf = some .noFill ↔
      ¬ ∃ s, c.styleBg = some s ∧ s ≠ "" ∧ s ≠ "transparent") ∧
    classifyFillColor none = .grey ∧
    classifyFillColor (some "transparent") = .grey ∧
    classifyFillColor (some "#ffffff") = .grey := by
  refine ⟨rfl, ?_, ?_, by decide, by decide, by decide⟩
  · unfold renderShapeComponent
    simp only [ShapeDesc.fillOf]
    rcases hbg : c.styleBg with _ | s
    · simp
    · by_cases h1 : s = ""
      · simp [h1]
      · by_cases h2 : s = "transparent"
        · simp [h1, h2]
        · simp [h1, h2]
  · unfold renderShapeComponent
    simp only [ShapeDesc.fillOf]
    rcases hbg : c.styleBg with _ | s
    · simp
    · by_cases h1 : s = ""
      · simp [h1]
      · by_cases h2 : s = "transparent"
        · simp [h1, h2]
        · simp [h1, h2]

theorem numOr300_div_zero_not_finite (o : Option JSNum) :
    ((numOr o 300).div (.finite 0)).isFinite = false := by
  unfold numOr
  match o with
  | none => rfl
  | some v =>
    cases v with
    | finite q =>
      by_cases hq : q = 0
      · simp [JSNum.truthy, hq]
        rfl
      · simp only [JSNum.truthy, decide_eq_true_eq, if_pos hq]
        show ((JSNum.finite q).div (.finite 0)).isFinite = false
        unfold JSNum.div
        rcases lt_trichotomy 0 q with h | h | h
        · simp [hq, h, JSNum.isFinite]
        · exact absurd h.symm hq
        · simp [hq, not_lt.2 (le_of_lt h), JSNum.isFinite]
    | posInf => rfl
    | negInf => rfl
    | nan => rfl

theorem add_not_finite_of_right (t w : JSNum) (hw : w.isFinite = false) :
    (t.add w).isFinite = false := by
  cases w with
  | finite q => simp [JSNum.isFinite] at hw
  | posInf => cases t <;> rfl
  | negInf => cases t <;> rfl
  | nan => cases t <;> rfl

theorem natCast_mul_not_finite (k : Nat) (w : JSNum) (hw : w.isFinite = false) :
    ((JSNum.finite k).mul w).isFinite = false := by
  cases w with
  | finite q => simp [JSNum.isFinite] at hw
  | nan => rfl
  | posInf =>
    show (if (k : ℚ) = 0 then JSNum.nan
          else if 0 < (k : ℚ) then JSNum.posInf else JSNum.negInf).isFinite = false
    by_cases hk : (k : ℚ) = 0
    · simp [hk, JSNum.isFinite]
    · have : 0 < (k : ℚ) := by
        have : k ≠ 0 := fun h => hk (by simp [h])
        exact_mod_cast Nat.pos_of_ne_zero this
      simp [hk, this, JSNum.isFinite]
  | negInf =>
    show (if (k : ℚ) = 0 then JSNum.nan
          else if 0 < (k : ℚ) then JSNum.negInf else JSNum.posInf).isFinite = false
    by_cases hk : (k : ℚ) = 0
    · simp [hk, JSNum.isFinite]
    · have : 0 < (k : ℚ) := by
        have : k ≠ 0 := fun h => hk (by simp [h])
        exact_mod_cast Nat.pos_of_ne_zero this
      simp [hk, this, JSNum.isFinite]

theorem add_not_finite_of_left (t w : JSNum) (ht : t.isFinite = false) :
    (t.add w).isFinite = false := by
  cases t with
  | finite q => simp [JSNum.isFinite] at ht
  | posInf => cases w <;> rfl
  | negInf => cases w <;> rfl
  | nan => cases w <;> rfl

/-- C10: when `metadata.cols` is absent and the first row of a non-empty
`tableData` is empty, the derived column count is 0, the unguarded division
makes the cell width non-finite, and every shape the decomposer emits (each
coming from a later non-empty row) carries a non-finite (infinite or NaN) x
coordinate. -/
theorem c10_table_div_by_zero (c : Component) (index : Nat) (frameX frameY : JSNum)
    (slideIndex : Nat) (frameId : Option String) (rest : List (List String))
    (hcols : c.mdCols = none) (htd : c.mdTableData = [] :: rest) :
    numOr c.mdCols (.finite (match c.mdTableData.head? with
      | some r => (r.length : ℚ) | none => 0)) = .finite 0 ∧
    ((numOr c.width 300).div (numOr c.mdCols (.finite (match c.mdTableData.head? with
      | some r => (r.length : ℚ) | none => 0)))).isFinite = false ∧
    ∀ d ∈ renderTableComponent c index frameX frameY slideIndex frameId,
      d.xOf.isFinite = false := by
  have hc : numOr c.mdCols (.finite (match c.mdTableData.head? with
      | some r => (r.length : ℚ) | none => 0)) = .finite 0 := by
    rw [hcols, htd]
    simp [numOr]
  refine ⟨hc, by rw [hc]; exact numOr300_div_zero_not_finite _, ?_⟩
  intro d hd
  unfold renderTableComponent at hd
  rw [htd, hcols] at hd
  have hc2 : numOr none (JSNum.finite (match ([] :: rest : List (List String)).head? with
      | some r => (r.length : ℚ) | none => 0)) = .finite 0 := by
    simp [numOr]
  simp only [List.isEmpty_cons, Bool.false_eq_true, if_false, List.mem_flatMap] at hd
  rw [hc2] at hd
  obtain ⟨rc, _hrc, cc, _hcc, hdm⟩ := hd
  have hcw : ((numOr c.width 300).div (.finite 0)).isFinite = false :=
    numOr300_div_zero_not_finite _
  by_cases ht : jsTrim cc.2 = ""
  · rw [if_pos ht, List.mem_singleton] at hdm
    subst hdm
    exact add_not_finite_of_right _ _ (natCast_mul_not_finite _ _ hcw)
  · rw [if_neg ht, List.mem_cons, List.mem_singleton] at hdm
    rcases hdm with hdm | hdm <;> subst hdm
    · exact add_not_finite_of_right _ _ (natCast_mul_not_finite _ _ hcw)
    · exact add_not_finite_of_left _ _
        (add_not_finite_of_right _ _ (natCast_mul_not_finite _ _ hcw))

/-- Witness for C10: on the concrete table `[[], ["a"]]` with no metadata
column count, the computed cell width is non-finite and both emitted shapes
(the background cell and the text of the cell in row 1) have NaN x. -/
theorem c10_table_div_by_zero_witness :
    ((numOr exTableDiv0.width 300).div (numOr exTableDiv0.mdCols
      (.finite (match exTableDiv0.mdTableData.head? with
        | some r => (r.length : ℚ) | none => 0)))).isFinite = false ∧
    ((renderTableComponent exTableDiv0 0 0 0 0 (some "slide-frame-0")).map
      ShapeDesc.xOf) = [JSNum.nan, JSNum.nan] :=
  ⟨(c10_table_div_by_zero exTableDiv0 0 0 0 0 (some "slide-frame-0") [["a"]]
      (by decide) (by decide)).2.1, by decide⟩

theorem enumF_length (i : Nat) (l : List α) : (enumF i l).length = l.length := by
  induction l generalizing i with
  | nil => rfl
  | cons a t ih => simp [enumF, ih]

theorem enumF_map_snd (i : Nat) (l : List α) : (enumF i l).map Prod.snd = l := by
  induction l generalizing i with
  | nil => rfl
  | cons a t ih => simp [enumF, ih]

theorem flatMap_one (l : List α) (f : α → β) :
    (l.flatMap fun a => [f a]) = l.map f := by
  induction l with
  | nil => rfl
  | cons a t ih => simp [List.flatMap_cons, ih]

theorem flatMap_congr_mem {l : List α} {f g : α → List β}
    (h : ∀ a ∈ l, f a = g a) : l.flatMap f = l.flatMap g := by
  induction l with
  | nil => rfl
  | cons a t ih =>
    simp only [List.flatMap_cons]
    rw [h a (List.mem_cons_self a t), ih (fun b hb => h b (List.mem_cons_of_mem a hb))]

theorem gridIdx_length (rs : List (List String)) :
    (gridIdx rs).length = (rs.map List.length).sum := by
  unfold gridIdx
  rw [List.length_flatMap]
  have h1 : (List.map (List.length ∘ fun rc => (enumF 0 rc.2).map fun cc => (rc.1, cc.1))
      (enumF 0 rs)) = List.map (List.length ∘ Prod.snd) (enumF 0 rs) := by
    apply List.map_congr_left
    intro rc _
    simp [enumF_length]
  rw [h1, ← List.map_map, enumF_map_snd]

theorem sum_lengths_rect (rs : List (List String)) (k : Nat)
    (h : ∀ row ∈ rs, row.length = k) : (rs.map List.length).sum = rs.length * k := by
  induction rs with
  | nil => simp
  | cons a t ih =>
    simp only [List.map_cons, List.sum_cons, List.length_cons]
    rw [h a (List.mem_cons_self a t), ih (fun b hb => h b (List.mem_cons_of_mem a hb))]
    ring

theorem textCount (row : List String) (f : Nat × String → ShapeDesc) (i : Nat) :
    ((enumF i row).flatMap (fun cc => if jsTrim cc.2 = "" then [] else [f cc])).length
      = (row.filter fun s => decide (jsTrim s ≠ "")).length := by
  induction row generalizing i with
  | nil => rfl
  | cons s t ih =>
    simp only [enumF, List.flatMap_cons, List.length_append, List.filter_cons]
    by_cases h : jsTrim s = ""
    · simp [h, ih]
    · simp [h, ih]
      omega

theorem filter_geo_cell (p : Prop) [Decidable p] (a b : ShapeDesc)
    (ha : a.isGeo = true) (hb : b.isGeo = false) :
    List.filter ShapeDesc.isGeo (if p then [a] else [a, b]) = [a] := by
  split <;> simp [List.filter, ha, hb]

theorem filter_text_cell (p : Prop) [Decidable p] (a b : ShapeDesc)
    (ha : a.isText = false) (hb : b.isText = true) :
    List.filter ShapeDesc.isText (if p then [a] else [a, b])
      = (if p then [] else [b]) := by
  split <;> simp [List.filter, ha, hb]

theorem textCount2 (row : List String) (bgf textf : Nat × String → ShapeDesc)
    (hbg : ∀ a, (bgf a).isText = false) (htf : ∀ a, (textf a).isText = true) (i : Nat) :
    ((enumF i row).flatMap (fun cc => List.filter ShapeDesc.isText
        (if jsTrim cc.2 = "" then [bgf cc] else [bgf cc, textf cc]))).length
      = (row.filter fun s => decide (jsTrim s ≠ "")).length := by
  induction row generalizing i with
  | nil => rfl
  | cons s t ih =>
    simp only [enumF, List.flatMap_cons, List.length_append, List.filter_cons]
    by_cases h : jsTrim s = ""
    · simp [h, List.filter, hbg, ih]
    · simp [h, List.filter, hbg, htf, ih]
      omega

theorem textCountOuter (rs : List (List String))
    (bgf textf : (Nat × List String) → (Nat × String) → ShapeDesc)
    (hbg : ∀ rc a, (bgf rc a).isText = false)
    (htf : ∀ rc a, (textf rc a).isText = true) (i : Nat) :
    ((enumF i rs).flatMap (fun rc => (enumF 0 rc.2).flatMap (fun a =>
        List.filter ShapeDesc.isText
          (if jsTrim a.2 = "" then [bgf rc a] else [bgf rc a, textf rc a])))).length
      = (rs.map (fun row => (row.filter fun s => decide (jsTrim s ≠ "")).length)).sum := by
  induction rs generalizing i with
  | nil => rfl
  | cons r t ih =>
    simp only [enumF, List.flatMap_cons, List.length_append, List.map_cons, List.sum_cons]
    rw [textCount2 _ _ _ (fun a => hbg _ a) (fun a => htf _ a) 0, ih]

/-- C5 (amended): table decomposition emits nothing for empty `tableData`;
otherwise one solid background cell per entry of each row — `Σ` of the row
lengths, equal to `rows × cols` when the grid is rectangular — tiled
row-major at `(tableX + col·cellWidth, tableY + row·cellHeight)` with the
uniform cell size `(width/cols, height/rows)`, plus exactly one text
descriptor per cell whose content is non-blank after trimming. -/
theorem c5_table_decomposition (c : Component) (index : Nat) (frameX frameY : JSNum)
    (slideIndex : Nat) (frameId : Option String) :
    (c.mdTableData = [] →
      renderTableComponent c index frameX frameY slideIndex frameId = []) ∧
    ((renderTableComponent c index frameX frameY slideIndex frameId).filter
        ShapeDesc.isGeo).length = (c.mdTableData.map List.length).sum ∧
    ((renderTableComponent c index frameX frameY slideIndex frameId).filter
        ShapeDesc.isText).length
      = (c.mdTableData.map (fun row =>
          (row.filter fun s => decide (jsTrim s ≠ "")).length)).sum ∧
    (∀ k, (∀ row ∈ c.mdTableData, row.length = k) →
      ((renderTableComponent c index frameX frameY slideIndex frameId).filter
        ShapeDesc.isGeo).length = c.mdTableData.length * k) ∧
    ((renderTableComponent c index frameX frameY slideIndex frameId).filter
        ShapeDesc.isGeo)
      = (gridIdx c.mdTableData).map (fun p =>
          ShapeDesc.geo
            ("table-" ++ natToString slideIndex ++ "-" ++ idKey c index
              ++ "-cell-bg-" ++ natToString p.1 ++ "-" ++ natToString p.2)
            frameId
            ((posX c frameX frameId).add ((JSNum.finite p.2).mul
              ((numOr c.width 300).div (numOr c.mdCols
                (.finite (match c.mdTableData.head? with
                  | some r => (r.length : ℚ) | none => 0))))))
            ((posY c frameY frameId).add ((JSNum.finite p.1).mul
              ((numOr c.height 150).div (numOr c.mdRows
                (.finite (c.mdTableData.length : ℚ))))))
            0 .rectangle
            (if decide (p.1 = 0) && c.mdHasHeader then .blue else .lightBlue)
            .solid .s
            ((numOr c.width 300).div (numOr c.mdCols
              (.finite (match c.mdTableData.head? with
                | some r => (r.length : ℚ) | none => 0))))
            ((numOr c.height 150).div (numOr c.mdRows
              (.finite (c.mdTableData.length : ℚ))))) := by
  by_cases htd : c.mdTableData = []
  · have hr : renderTableComponent c index frameX frameY slideIndex frameId = [] := by
      unfold renderTableComponent
      rw [htd]
      simp
    refine ⟨fun _ => hr, ?_, ?_, ?_, ?_⟩ <;> simp [hr, htd, gridIdx, enumF]
  · have hne : c.mdTableData.isEmpty = false := by simp [htd]
    have hgeo : ((renderTableComponent c index frameX frameY slideIndex frameId).filter
        ShapeDesc.isGeo)
      = (gridIdx c.mdTableData).map (fun p =>
          ShapeDesc.geo
            ("table-" ++ natToString slideIndex ++ "-" ++ idKey c index
              ++ "-cell-bg-" ++ natToString p.1 ++ "-" ++ natToString p.2)
            frameId
            ((posX c frameX frameId).add ((JSNum.finite p.2).mul
              ((numOr c.width 300).div (numOr c.mdCols
                (.finite (match c.mdTableData.head? with
                  | some r => (r.length : ℚ) | none => 0))))))
            ((posY c frameY frameId).add ((JSNum.finite p.1).mul
              ((numOr c.height 150).div (numOr c.mdRows
                (.finite (c.mdTableData.length : ℚ))))))
            0 .rectangle
            (if decide (p.1 = 0) && c.mdHasHeader then .blue else .lightBlue)
            .solid .s
            ((numOr c.width 300).div (numOr c.mdCols
              (.finite (match c.mdTableData.head? with
                | some r => (r.length : ℚ) | none => 0))))
            ((numOr c.height 150).div (numOr c.mdRows
              (.finite (c.mdTableData.length : ℚ))))) := by
      unfold renderTableComponent
      simp only [hne, Bool.false_eq_true, if_false, gridIdx, List.map_flatMap,
        List.filter_flatMap, List.map_map]
      apply flatMap_congr_mem
      intro rc _
      rw [← flatMap_one]
      apply flatMap_congr_mem
      intro a _
      split <;> simp [List.filter, ShapeDesc.isGeo]
    have htext : ((renderTableComponent c index frameX frameY slideIndex frameId).filter
        ShapeDesc.isText).length
      = (c.mdTableData.map (fun row =>
          (row.filter fun s => decide (jsTrim s ≠ "")).length)).sum := by
      unfold renderTableComponent
      simp only [hne, Bool.false_eq_true, if_false, List.filter_flatMap]
      refine textCountOuter c.mdTableData _ _ ?_ ?_ 0
      · intro rc a
        rfl
      · intro rc a
        rfl
    refine ⟨fun h => absurd h htd, ?_, htext, ?_, hgeo⟩
    · rw [hgeo, List.length_map, gridIdx_length]
    · intro k hk
      rw [hgeo, List.length_map, gridIdx_length, sum_lengths_rect c.mdTableData k hk]

/-- Counterexample to C5 as stated: for a table whose metadata advertises
`rows = 5, cols = 7` while `tableData` is a single one-cell row, the claim
demands `rows × cols = 35` background cells, but exactly one background cell
is emitted (the loop runs over `tableData`, not over `rows × cols`). -/
theorem c5_counterexample :
    numOr exTableBad.mdRows (.finite exTableBad.mdTableData.length) = .finite 5 ∧
    numOr exTableBad.mdCols (.finite (match exTableBad.mdTableData.head? with
      | some r => (r.length : ℚ) | none => 0)) = .finite 7 ∧
    exTableBad.mdTableData ≠ [] ∧
    ((renderTableComponent exTableBad 0 0 0 0 (some "slide-frame-0")).filter
      ShapeDesc.isGeo).length = 1 ∧
    (5 * 7 : Nat) ≠ 1 := by decide

/-- Witness for C5 (amended) on the spec's example: a 3 × 2 table with two
blank cells emits exactly 6 background cells and exactly 4 text overlays. -/
theorem c5_table_decomposition_witness :
    ((renderTableComponent exTable32 0 0 0 0 (some "slide-frame-0")).filter
        ShapeDesc.isGeo).length = 6 ∧
    ((renderTableComponent exTable32 0 0 0 0 (some "slide-frame-0")).filter
        ShapeDesc.isText).length = 4 ∧
    ((renderTableComponent exTable32 0 0 0 0 (some "slide-frame-0")).filter
        ShapeDesc.isGeo).length = exTable32.mdTableData.length * 2 :=
  have h := c5_table_decomposition exTable32 0 0 0 0 (some "slide-frame-0")
  ⟨by rw [h.2.1]; decide, by rw [h.2.2.1]; decide,
   h.2.2.2.1 2 (by decide)⟩

/-- C7 (amended): for a component with nonzero finite rotation `r` degrees and
`θ = r·π/180`, the text builder emits position
`(cx − (w/2)·cos θ + (h/2)·sin θ, cy − (w/2)·sin θ − (h/2)·cos θ)` for the
centre `(cx, cy) = (x + w/2, y + h/2)` and rotation `θ`; the geo builder and
the asset-path image builder leave the position unadjusted and set rotation
`θ`; the placeholder emitted for an unresolvable image keeps the unadjusted
position but carries rotation `0`, not `θ`. -/
theorem c7_rotation_correction (env : JsEnv) (gen : Nat → String) (assetCtr : Nat)
    (c : Component) (index : Nat) (frameX frameY : JSNum) (slideIndex : Nat)
    (frameId : Option String) (r : ℚ) (hr : c.rotation = some (.finite r))
    (hr0 : r ≠ 0) :
    (renderTextComponent env c index frameX frameY slideIndex frameId).xOf
      = (((posX c frameX frameId).add ((numOr c.width 0).div 2)).sub
          (((numOr c.width 0).div 2).mul
            (env.cos (((JSNum.finite r).mul jsPI).div 180)))).add
          (((numOr c.height 0).div 2).mul
            (env.sin (((JSNum.finite r).mul jsPI).div 180))) ∧
    (renderTextComponent env c index frameX frameY slideIndex frameId).yOf
      = (((posY c frameY frameId).add ((numOr c.height 0).div 2)).sub
          (((numOr c.width 0).div 2).mul
            (env.sin (((JSNum.finite r).mul jsPI).div 180)))).sub
          (((numOr c.height 0).div 2).mul
            (env.cos (((JSNum.finite r).mul jsPI).div 180))) ∧
    (renderTextComponent env c index frameX frameY slideIndex frameId).rotOf
      = ((JSNum.finite r).mul jsPI).div 180 ∧
    (renderShapeComponent c index frameX frameY slideIndex frameId).xOf
      = posX c frameX frameId ∧
    (renderShapeComponent c index frameX frameY slideIndex frameId).yOf
      = posY c frameY frameId ∧
    (renderShapeComponent c index frameX frameY slideIndex frameId).rotOf
      = ((JSNum.finite r).mul jsPI).div 180 ∧
    (∀ url, c.mdImageUrl = some url → url ≠ "" → jsStartsWith url "data:" = true →
      env.fetchOk url = true → ∀ m, env.blobMime url = some m →
      ((renderImageComponent env gen assetCtr c index frameX frameY slideIndex
          frameId).1.map ShapeDesc.rotOf = [((JSNum.finite r).mul jsPI).div 180] ∧
       (renderImageComponent env gen assetCtr c index frameX frameY slideIndex
          frameId).1.map ShapeDesc.xOf = [posX c frameX frameId] ∧
       (renderImageComponent env gen assetCtr c index frameX frameY slideIndex
          frameId).1.map ShapeDesc.yOf = [posY c frameY frameId])) ∧
    ((∀ url ∈ c.mdImageUrl, jsStartsWith url "data:" = false) →
      ((renderImageComponent env gen assetCtr c index frameX frameY slideIndex
          frameId).1.map ShapeDesc.rotOf = [JSNum.finite 0] ∧
       (renderImageComponent env gen assetCtr c index frameX frameY slideIndex
          frameId).1.map ShapeDesc.xOf = [posX c frameX frameId] ∧
       (renderImageComponent env gen assetCtr c index frameX frameY slideIndex
          frameId).1.map ShapeDesc.yOf = [posY c frameY frameId])) := by
  have htr : JSNum.truthy (.finite r) = true := by simp [JSNum.truthy, hr0]
  have hcond : ((JSNum.finite r).truthy && decide (JSNum.finite r ≠ JSNum.finite 0)) = true := by
    simp [htr, hr0]
  have hrot : rotField c = ((JSNum.finite r).mul jsPI).div 180 := by
    unfold rotField
    rw [hr]
    simp [htr]
  refine ⟨?_, ?_, ?_, ?_, ?_, ?_, ?_, ?_⟩
  · unfold renderTextComponent
    simp only [hr, numNullish, hcond, if_true, ShapeDesc.xOf]
  · unfold renderTextComponent
    simp only [hr, numNullish, hcond, if_true, ShapeDesc.yOf]
  · unfold renderTextComponent
    simp only [ShapeDesc.rotOf, hrot]
  · rfl
  · rfl
  · unfold renderShapeComponent
    simp only [ShapeDesc.rotOf, hrot]
  · intro url hurl hne hdata hfetch m hm
    unfold renderImageComponent
    rw [hurl]
    simp only [hne, if_false, hdata, if_true, hfetch, hm, List.map_cons, List.map_nil,
      ShapeDesc.rotOf, ShapeDesc.xOf, ShapeDesc.yOf, hrot]
    exact ⟨trivial, trivial, trivial⟩
  · intro hnd
    rw [c6_image_fallback env gen assetCtr c index frameX frameY slideIndex frameId hnd]
    exact ⟨rfl, rfl, rfl⟩

/-- Counterexample to C7 as stated: an image component rotated 90° whose URL
cannot be resolved emits a placeholder whose rotation field is `0`, not
`θ = 90·π/180`. -/
theorem c7_counterexample :
    exImageRot.type = "image" ∧
    exImageRot.rotation = some (.finite 90) ∧
    ((renderImageComponent exEnv exGen 0 exImageRot 0 0 0 0 (some "slide-frame-0")).1.map
      ShapeDesc.rotOf) = [JSNum.finite 0] ∧
    ((JSNum.finite 90).mul jsPI).div 180 ≠ JSNum.finite 0 := by
  refine ⟨rfl, rfl, by decide, ?_⟩
  show (JSNum.finite (90 * (884279719003555 / 281474976710656 : ℚ))).div
    (JSNum.finite 180) ≠ JSNum.finite 0
  simp only [JSNum.div]
  rw [if_neg (by norm_num : ¬(180 : ℚ) = 0)]
  simp only [ne_eq, JSNum.finite.injEq]
  norm_num

/-- Witness for C7 (amended) at 90°: the text component at (100,100) size
(50,20) takes the corrected position and rotation `θ`; the shape keeps its
position and takes rotation `θ`. -/
theorem c7_rotation_correction_witness :
    exTextRot.rotation = some (JSNum.finite 90) ∧ (90 : ℚ) ≠ 0 ∧
    (renderTextComponent exEnv exTextRot 0 0 0 0 (some "slide-frame-0")).rotOf
      = ((JSNum.finite 90).mul jsPI).div 180 ∧
    (renderShapeComponent exShapeRot 0 0 0 0 (some "slide-frame-0")).rotOf
      = ((JSNum.finite 90).mul jsPI).div 180 ∧
    (renderShapeComponent exShapeRot 0 0 0 0 (some "slide-frame-0")).xOf
      = posX exShapeRot (JSNum.finite 0) (some "slide-frame-0") :=
  ⟨rfl, by norm_num,
   (c7_rotation_correction exEnv exGen 0 exTextRot 0 0 0 0 (some "slide-frame-0") 90 rfl
      (by norm_num)).2.2.1,
   (c7_rotation_correction exEnv exGen 0 exShapeRot 0 0 0 0 (some "slide-frame-0") 90 rfl
      (by norm_num)).2.2.2.2.2.1,
   (c7_rotation_correction exEnv exGen 0 exShapeRot 0 0 0 0 (some "slide-frame-0") 90 rfl
      (by norm_num)).2.2.2.1⟩


set_option maxHeartbeats 1600000 in
theorem classifyFill_eq_cascade (col : String)
    (h1 : ¬ col = "") (h2 : ¬ col = "transparent") :
    classifyFillColor (some col) = (colorCascade (jsToLower col)).getD .grey := by
  simp only [classifyFillColor]
  rw [if_neg (by simp [h1, h2])]
  simp only [colorCascade]
  by_cases hh0 : jsToLower col = "#000000"
  · rw [if_pos hh0, if_pos hh0]
    rfl
  rw [if_neg hh0, if_neg hh0]
  by_cases hh1 : jsToLower col = "#ffffff"
  · rw [if_pos hh1, if_pos hh1]
    rfl
  rw [if_neg hh1, if_neg hh1]
  by_cases hh2 : jsToLower col = "#ed7d31"
  · rw [if_pos hh2, if_pos hh2]
    rfl
  rw [if_neg hh2, if_neg hh2]
  by_cases hh3 : jsToLower col = "#4472c4"
  · rw [if_pos hh3, if_pos hh3]
    rfl
  rw [if_neg hh3, if_neg hh3]
  by_cases hh4 : jsToLower col = "#5b9bd5"
  · rw [if_pos hh4, if_pos hh4]
    rfl
  rw [if_neg hh4, if_neg hh4]
  by_cases hh5 : jsToLower col = "#70ad47"
  · rw [if_pos hh5, if_pos hh5]
    rfl
  rw [if_neg hh5, if_neg hh5]
  by_cases hh6 : jsToLower col = "#ffc000"
  · rw [if_pos hh6, if_pos hh6]
    rfl
  rw [if_neg hh6, if_neg hh6]
  by_cases hh7 : jsToLower col = "#c55a5a"
  · rw [if_pos hh7, if_pos hh7]
    rfl
  rw [if_neg hh7, if_neg hh7]
  by_cases hh8 : (jsStartsWith (jsToLower col) "#ed" || jsStartsWith (jsToLower col) "#e9" || (jsStartsWith (jsToLower col) "#f" && !jsIncl (jsToLower col) "ff")) = true
  · rw [if_pos hh8, if_pos hh8]
    rfl
  rw [if_neg hh8, if_neg hh8]
  by_cases hh9 : (jsStartsWith (jsToLower col) "#44" || jsStartsWith (jsToLower col) "#45") = true
  · rw [if_pos hh9, if_pos hh9]
    rfl
  rw [if_neg hh9, if_neg hh9]
  by_cases hh10 : (jsStartsWith (jsToLower col) "#5b" || jsStartsWith (jsToLower col) "#5a") = true
  · rw [if_pos hh10, if_pos hh10]
    rfl
  rw [if_neg hh10, if_neg hh10]
  by_cases hh11 : (jsStartsWith (jsToLower col) "#70" || jsStartsWith (jsToLower col) "#6" || jsStartsWith (jsToLower col) "#4e") = true
  · rw [if_pos hh11, if_pos hh11]
    rfl
  rw [if_neg hh11, if_neg hh11]
  by_cases hh12 : (jsStartsWith (jsToLower col) "#ff" && jsIncl (jsToLower col) "c") = true
  · rw [if_pos hh12, if_pos hh12]
    rfl
  rw [if_neg hh12, if_neg hh12]
  by_cases hh13 : (jsStartsWith (jsToLower col) "#ff" && !jsIncl (jsToLower col) "c") = true
  · rw [if_pos hh13, if_pos hh13]
    rfl
  rw [if_neg hh13, if_neg hh13]
  by_cases hh14 : (jsStartsWith (jsToLower col) "#c5" || jsIncl (jsToLower col) "red") = true
  · rw [if_pos hh14, if_pos hh14]
    rfl
  rw [if_neg hh14, if_neg hh14]
  by_cases hh15 : (jsStartsWith (jsToLower col) "#e7" || jsStartsWith (jsToLower col) "#a5") = true
  · rw [if_pos hh15, if_pos hh15]
    rfl
  rw [if_neg hh15, if_neg hh15]
  by_cases hh16 : jsStartsWith (jsToLower col) "#4" = true
  · rw [if_pos hh16, if_pos hh16]
    rfl
  rw [if_neg hh16, if_neg hh16]
  by_cases hh17 : jsStartsWith (jsToLower col) "#5" = true
  · rw [if_pos hh17, if_pos hh17]
    rfl
  rw [if_neg hh17, if_neg hh17]
  by_cases hh18 : (jsStartsWith (jsToLower col) "#7" || jsStartsWith (jsToLower col) "#6") = true
  · rw [if_pos hh18, if_pos hh18]
    rfl
  rw [if_neg hh18, if_neg hh18]
  by_cases hh19 : (jsStartsWith (jsToLower col) "#e" || jsStartsWith (jsToLower col) "#f") = true
  · rw [if_pos hh19, if_pos hh19]
    rfl
  rw [if_neg hh19, if_neg hh19]
  rfl

set_option maxHeartbeats 1600000 in
theorem classifyStroke_eq_cascade (col : String)
    (h1 : ¬ col = "") (h2 : ¬ col = "transparent") :
    classifyStrokeColor (some col) = (colorCascade (jsToLower col)).getD .black := by
  simp only [classifyStrokeColor]
  rw [if_neg (by simp [h1, h2])]
  simp only [colorCascade]
  by_cases hh0 : jsToLower col = "#000000"
  · rw [if_pos hh0, if_pos hh0]
    rfl
  rw [if_neg hh0, if_neg hh0]
  by_cases hh1 : jsToLower col = "#ffffff"
  · rw [if_pos hh1, if_pos hh1]
    rfl
  rw [if_neg hh1, if_neg hh1]
  by_cases hh2 : jsToLower col = "#ed7d31"
  · rw [if_pos hh2, if_pos hh2]
    rfl
  rw [if_neg hh2, if_neg hh2]
  by_cases hh3 : jsToLower col = "#4472c4"
  · rw [if_pos hh3, if_pos hh3]
    rfl
  rw [if_neg hh3, if_neg hh3]
  by_cases hh4 : jsToLower col = "#5b9bd5"
  · rw [if_pos hh4, if_pos hh4]
    rfl
  rw [if_neg hh4, if_neg hh4]
  by_cases hh5 : jsToLower col = "#70ad47"
  · rw [if_pos hh5, if_pos hh5]
    rfl
  rw [if_neg hh5, if_neg hh5]
  by_cases hh6 : jsToLower col = "#ffc000"
  · rw [if_pos hh6, if_pos hh6]
    rfl
  rw [if_neg hh6, if_neg hh6]
  by_cases hh7 : jsToLower col = "#c55a5a"
  · rw [if_pos hh7, if_pos hh7]
    rfl
  rw [if_neg hh7, if_neg hh7]
  by_cases hh8 : (jsStartsWith (jsToLower col) "#ed" || jsStartsWith (jsToLower col) "#e9" || (jsStartsWith (jsToLower col) "#f" && !jsIncl (jsToLower col) "ff")) = true
  · rw [if_pos hh8, if_pos hh8]
    rfl
  rw [if_neg hh8, if_neg hh8]
  by_cases hh9 : (jsStartsWith (jsToLower col) "#44" || jsStartsWith (jsToLower col) "#45") = true
  · rw [if_pos hh9, if_pos hh9]
    rfl
  rw [if_neg hh9, if_neg hh9]
  by_cases hh10 : (jsStartsWith (jsToLower col) "#5b" || jsStartsWith (jsToLower col) "#5a") = true
  · rw [if_pos hh10, if_pos hh10]
    rfl
  rw [if_neg hh10, if_neg hh10]
  by_cases hh11 : (jsStartsWith (jsToLower col) "#70" || jsStartsWith (jsToLower col) "#6" || jsStartsWith (jsToLower col) "#4e") = true
  · rw [if_pos hh11, if_pos hh11]
    rfl
  rw [if_neg hh11, if_neg hh11]
  by_cases hh12 : (jsStartsWith (jsToLower col) "#ff" && jsIncl (jsToLower col) "c") = true
  · rw [if_pos hh12, if_pos hh12]
    rfl
  rw [if_neg hh12, if_neg hh12]
  by_cases hh13 : (jsStartsWith (jsToLower col) "#ff" && !jsIncl (jsToLower col) "c") = true
  · rw [if_pos hh13, if_pos hh13]
    rfl
  rw [if_neg hh13, if_neg hh13]
  by_cases hh14 : (jsStartsWith (jsToLower col) "#c5" || jsIncl (jsToLower col) "red") = true
  · rw [if_pos hh14, if_pos hh14]
    rfl
  rw [if_neg hh14, if_neg hh14]
  by_cases hh15 : (jsStartsWith (jsToLower col) "#e7" || jsStartsWith (jsToLower col) "#a5") = true
  · rw [if_pos hh15, if_pos hh15]
    rfl
  rw [if_neg hh15, if_neg hh15]
  by_cases hh16 : jsStartsWith (jsToLower col) "#4" = true
  · rw [if_pos hh16, if_pos hh16]
    rfl
  rw [if_neg hh16, if_neg hh16]
  by_cases hh17 : jsStartsWith (jsToLower col) "#5" = true
  · rw [if_pos hh17, if_pos hh17]
    rfl
  rw [if_neg hh17, if_neg hh17]
  by_cases hh18 : (jsStartsWith (jsToLower col) "#7" || jsStartsWith (jsToLower col) "#6") = true
  · rw [if_pos hh18, if_pos hh18]
    rfl
  rw [if_neg hh18, if_neg hh18]
  by_cases hh19 : (jsStartsWith (jsToLower col) "#e" || jsStartsWith (jsToLower col) "#f") = true
  · rw [if_pos hh19, if_pos hh19]
    rfl
  rw [if_neg hh19, if_neg hh19]
  rfl

/-- C8: the fill-colour and stroke-colour classifiers share the entire rule
cascade and differ only in the terminal default: on any input that hits a
non-default rule they agree; both always land in the 12-entry palette; on
unmatched, absent, empty or `"transparent"` input the fill classifier gives
grey and the stroke classifier black. -/
theorem c8_color_classifiers :
    (∀ i : Option String, hexMatchesNonDefault i = true →
      classifyFillColor i = classifyStrokeColor i) ∧
    (∀ i : Option String,
      classifyFillColor i ∈ palette12 ∧ classifyStrokeColor i ∈ palette12) ∧
    (∀ i : Option String, hexMatchesNonDefault i = false →
      classifyFillColor i = .grey ∧ classifyStrokeColor i = .black) := by
  have hpal : ∀ col : TldrawColor, col ∈ palette12 := by
    intro col
    cases col <;> decide
  refine ⟨?_, fun i => ⟨hpal _, hpal _⟩, ?_⟩
  · intro i h
    match i with
    | none => simp [hexMatchesNonDefault] at h
    | some col =>
      simp only [hexMatchesNonDefault] at h
      by_cases h1 : col = ""
      · simp [h1] at h
      · by_cases h2 : col = "transparent"
        · simp [h1, h2] at h
        · rw [if_neg (by simp [h1, h2])] at h
          rw [classifyFill_eq_cascade col h1 h2, classifyStroke_eq_cascade col h1 h2]
          obtain ⟨v, hv⟩ := Option.isSome_iff_exists.1 h
          rw [hv]
          rfl
  · intro i h
    match i with
    | none => exact ⟨rfl, rfl⟩
    | some col =>
      simp only [hexMatchesNonDefault] at h
      by_cases h1 : col = ""
      · subst h1
        exact ⟨rfl, rfl⟩
      · by_cases h2 : col = "transparent"
        · subst h2
          exact ⟨rfl, rfl⟩
        · rw [if_neg (by simp [h1, h2])] at h
          have hn : colorCascade (jsToLower col) = none := by
            cases hcc : colorCascade (jsToLower col) with
            | none => rfl
            | some v =>
              rw [hcc] at h
              simp at h
          rw [classifyFill_eq_cascade col h1 h2, classifyStroke_eq_cascade col h1 h2, hn]
          exact ⟨rfl, rfl⟩

/-- Witness for C8: `#ED7D31` hits a non-default rule and both classifiers
map it to orange; `#123abc` hits none, giving grey for fill and black for
stroke; `"transparent"` and absence give the defaults. -/
theorem c8_color_classifiers_witness :
    hexMatchesNonDefault (some "#ED7D31") = true ∧
    classifyFillColor (some "#ED7D31") = classifyStrokeColor (some "#ED7D31") ∧
    classifyFillColor (some "#ED7D31") = .orange ∧
    hexMatchesNonDefault (some "#123abc") = false ∧
    classifyFillColor (some "#123abc") = .grey ∧
    classifyStrokeColor (some "#123abc") = .black ∧
    classifyFillColor (some "transparent") = .grey ∧
    classifyStrokeColor none = .black :=
  ⟨by decide, c8_color_classifiers.1 (some "#ED7D31") (by decide),
   by decide, by decide,
   (c8_color_classifiers.2.2 (some "#123abc") (by decide)).1,
   (c8_color_classifiers.2.2 (some "#123abc") (by decide)).2,
   by decide, by decide⟩

theorem renderImage_gen (env : JsEnv) (gen1 gen2 : Nat → String) (ctr : Nat)
    (c : Component) (index : Nat) (frameX frameY : JSNum) (slideIndex : Nat)
    (frameId : Option String) :
    ((renderImageComponent env gen1 ctr c index frameX frameY slideIndex frameId).1.map
        ShapeDesc.stripAsset,
     (renderImageComponent env gen1 ctr c index frameX frameY slideIndex frameId).2.1.map
        AssetRec.stripId,
     (renderImageComponent env gen1 ctr c index frameX frameY slideIndex frameId).2.2)
    = ((renderImageComponent env gen2 ctr c index frameX frameY slideIndex frameId).1.map
        ShapeDesc.stripAsset,
       (renderImageComponent env gen2 ctr c index frameX frameY slideIndex frameId).2.1.map
        AssetRec.stripId,
       (renderImageComponent env gen2 ctr c index frameX frameY slideIndex frameId).2.2) := by
  unfold renderImageComponent
  match c.mdImageUrl with
  | none => rfl
  | some url =>
    by_cases h0 : url = ""
    · simp only [h0]
      rfl
    · simp only [h0, if_false]
      by_cases hd : jsStartsWith url "data:"
      · simp only [hd, if_true]
        by_cases hf : env.fetchOk url
        · simp only [hf, if_true]
          match env.blobMime url with
          | some m => rfl
          | none => rfl
        · rw [if_neg hf, if_neg hf]
      · rw [if_neg hd, if_neg hd]

theorem renderComponent_gen (env : JsEnv) (gen1 gen2 : Nat → String) (ctr : Nat)
    (c : Component) (index : Nat) (frameX frameY : JSNum) (slideIndex : Nat)
    (frameId : Option String) :
    ((renderComponent env gen1 ctr c index frameX frameY slideIndex frameId).1.map
        ShapeDesc.stripAsset,
     (renderComponent env gen1 ctr c index frameX frameY slideIndex frameId).2.1.map
        AssetRec.stripId,
     (renderComponent env gen1 ctr c index frameX frameY slideIndex frameId).2.2)
    = ((renderComponent env gen2 ctr c index frameX frameY slideIndex frameId).1.map
        ShapeDesc.stripAsset,
       (renderComponent env gen2 ctr c index frameX frameY slideIndex frameId).2.1.map
        AssetRec.stripId,
       (renderComponent env gen2 ctr c index frameX frameY slideIndex frameId).2.2) := by
  unfold renderComponent
  split
  · rfl
  · rfl
  · exact renderImage_gen env gen1 gen2 ctr c index frameX frameY slideIndex frameId
  · rfl
  · rfl

theorem renderLoop_gen (env : JsEnv) (gen1 gen2 : Nat → String) :
    ∀ (l : List (Nat × Component)) (ctr : Nat) (frameX frameY : JSNum)
      (slideIndex : Nat) (frameId : Option String),
    ((renderLoop env gen1 ctr l frameX frameY slideIndex frameId).1.map
        ShapeDesc.stripAsset,
     (renderLoop env gen1 ctr l frameX frameY slideIndex frameId).2.map
        AssetRec.stripId)
    = ((renderLoop env gen2 ctr l frameX frameY slideIndex frameId).1.map
        ShapeDesc.stripAsset,
       (renderLoop env gen2 ctr l frameX frameY slideIndex frameId).2.map
        AssetRec.stripId) := by
  intro l
  induction l with
  | nil => intro ctr frameX frameY slideIndex frameId; rfl
  | cons ic rest ih =>
    intro ctr frameX frameY slideIndex frameId
    obtain ⟨i, c⟩ := ic
    have hc := renderComponent_gen env gen1 gen2 ctr c i frameX frameY slideIndex frameId
    simp only [Prod.mk.injEq] at hc
    obtain ⟨hs, ha, hw⟩ := hc
    have hlen : (renderComponent env gen1 ctr c i frameX frameY slideIndex frameId).2.1.length
        = (renderComponent env gen2 ctr c i frameX frameY slideIndex frameId).2.1.length := by
      have := congrArg List.length ha
      simpa using this
    have hih := ih (ctr + (renderComponent env gen1 ctr c i frameX frameY slideIndex
      frameId).2.1.length) frameX frameY slideIndex frameId
    rw [hlen] at hih
    simp only [Prod.mk.injEq] at hih
    obtain ⟨hs2, ha2⟩ := hih
    unfold renderLoop
    simp only [List.map_append, Prod.mk.injEq]
    rw [hlen]
    exact ⟨by rw [hs, hs2], by rw [ha, ha2]⟩

theorem slidesLoop_gen (env : JsEnv) (gen1 gen2 : Nat → String) (maxW maxH : JSNum) :
    ∀ (slides : List Slide) (ctr slideIndex : Nat),
    ((slidesLoop env gen1 maxW maxH ctr slideIndex slides).1.map ShapeDesc.stripAsset,
     (slidesLoop env gen1 maxW maxH ctr slideIndex slides).2.map AssetRec.stripId)
    = ((slidesLoop env gen2 maxW maxH ctr slideIndex slides).1.map ShapeDesc.stripAsset,
       (slidesLoop env gen2 maxW maxH ctr slideIndex slides).2.map AssetRec.stripId) := by
  intro slides
  induction slides with
  | nil => intro ctr slideIndex; rfl
  | cons s rest ih =>
    intro ctr slideIndex
    have hc := renderLoop_gen env gen1 gen2
      (enumF 0 (sortByZ s.components)) ctr
      (((JSNum.finite (slideIndex % 4 : Nat)).mul (maxW.add 200)).add 50)
      (((JSNum.finite (slideIndex / 4 : Nat)).mul (maxH.add 200)).add 50)
      slideIndex (some ("slide-frame-" ++ natToString slideIndex))
    simp only [Prod.mk.injEq] at hc
    obtain ⟨hs, ha⟩ := hc
    have hlen : (renderLoop env gen1 ctr (enumF 0 (sortByZ s.components))
        (((JSNum.finite (slideIndex % 4 : Nat)).mul (maxW.add 200)).add 50)
        (((JSNum.finite (slideIndex / 4 : Nat)).mul (maxH.add 200)).add 50)
        slideIndex (some ("slide-frame-" ++ natToString slideIndex))).2.length
      = (renderLoop env gen2 ctr (enumF 0 (sortByZ s.components))
        (((JSNum.finite (slideIndex % 4 : Nat)).mul (maxW.add 200)).add 50)
        (((JSNum.finite (slideIndex / 4 : Nat)).mul (maxH.add 200)).add 50)
        slideIndex (some ("slide-frame-" ++ natToString slideIndex))).2.length := by
      have h2 := congrArg List.length ha
      simpa using h2
    have hih := ih (ctr + (renderLoop env gen1 ctr (enumF 0 (sortByZ s.components))
        (((JSNum.finite (slideIndex % 4 : Nat)).mul (maxW.add 200)).add 50)
        (((JSNum.finite (slideIndex / 4 : Nat)).mul (maxH.add 200)).add 50)
        slideIndex (some ("slide-frame-" ++ natToString slideIndex))).2.length)
      (slideIndex + 1)
    rw [hlen] at hih
    simp only [Prod.mk.injEq] at hih
    obtain ⟨hs2, ha2⟩ := hih
    unfold slidesLoop
    simp only [drawComponentsInFrame, List.map_append, List.map_cons, Prod.mk.injEq]
    rw [hlen]
    exact ⟨by rw [hs, hs2], by rw [ha, ha2]⟩

/-- C2: for a fixed input document and fixed host decoding behaviour, two runs
of the full scene build that differ only in the (random) asset-id generator
produce identical sequences of shape descriptors — identifiers, positions and
styles — and identical asset records, once the asset-record identifiers are
erased. -/
theorem c2_determinism (env : JsEnv) (gen1 gen2 : Nat → String)
    (slides : List Slide) :
    ((drawSlides env gen1 slides).1.map ShapeDesc.stripAsset,
     (drawSlides env gen1 slides).2.map AssetRec.stripId)
    = ((drawSlides env gen2 slides).1.map ShapeDesc.stripAsset,
       (drawSlides env gen2 slides).2.map AssetRec.stripId) := by
  unfold drawSlides
  by_cases h : slides.isEmpty
  · simp only [h, if_true]
  · simp only [h, Bool.false_eq_true, if_false]
    exact slidesLoop_gen env gen1 gen2 _ _ slides 0 0

theorem numNullish_z (c : Component) (h : c.zOk = true) :
    numNullish c.zIndex 0 = .finite (zQ c) := by
  unfold Component.zOk finOkB at h
  unfold numNullish zQ qOf
  match hz : c.zIndex with
  | none => rfl
  | some (.finite q) => rfl
  | some .posInf => rw [hz] at h; exact absurd h (by simp)
  | some .negInf => rw [hz] at h; exact absurd h (by simp)
  | some .nan => rw [hz] at h; exact absurd h (by simp)

theorem zSortLe_eq (a b : Component) (ha : a.zOk = true) (hb : b.zOk = true) :
    zSortLe a b = decide (zQ a ≤ zQ b) := by
  unfold zSortLe
  rw [numNullish_z a ha, numNullish_z b hb]
  show decide (zQ a + -(zQ b) ≤ 0) = decide (zQ a ≤ zQ b)
  simp only [← sub_eq_add_neg, sub_nonpos]

theorem insertByZ_perm (c : Component) (l : List Component) :
    (insertByZ c l).Perm (c :: l) := by
  induction l with
  | nil => exact List.Perm.refl _
  | cons d t ih =>
    unfold insertByZ
    split
    · exact List.Perm.refl _
    · exact (ih.cons d).trans (List.Perm.swap c d t)

theorem sortByZ_perm (l : List Component) : (sortByZ l).Perm l := by
  induction l with
  | nil => exact List.Perm.refl _
  | cons c t ih => exact (insertByZ_perm c (sortByZ t)).trans (ih.cons c)

theorem insertByZ_sorted (c : Component) (l : List Component)
    (hok : ∀ x ∈ l, x.zOk = true) (hc : c.zOk = true)
    (hs : l.Pairwise (fun a b => zQ a ≤ zQ b)) :
    (insertByZ c l).Pairwise (fun a b => zQ a ≤ zQ b) := by
  induction l with
  | nil => simp [insertByZ]
  | cons d t ih =>
    have hd : d.zOk = true := hok d (List.mem_cons_self d t)
    have hokt : ∀ x ∈ t, x.zOk = true := fun x hx => hok x (List.mem_cons_of_mem d hx)
    rw [List.pairwise_cons] at hs
    unfold insertByZ
    by_cases hle : zSortLe c d = true
    · rw [if_pos hle]
      rw [zSortLe_eq c d hc hd] at hle
      have hcd : zQ c ≤ zQ d := of_decide_eq_true hle
      refine List.Pairwise.cons ?_ (List.Pairwise.cons hs.1 hs.2)
      intro y hy
      rcases List.mem_cons.1 hy with hy | hy
      · exact hy ▸ hcd
      · exact le_trans hcd (hs.1 y hy)
    · rw [if_neg hle]
      rw [zSortLe_eq c d hc hd] at hle
      have hdc : zQ d < zQ c := lt_of_not_le (by simpa using hle)
      refine List.Pairwise.cons ?_ (ih hokt hs.2)
      intro y hy
      rcases List.mem_cons.1 ((insertByZ_perm c t).mem_iff.1 hy) with hy | hy
      · exact hy ▸ le_of_lt hdc
      · exact hs.1 y hy
  
theorem sortByZ_sorted (l : List Component) (hok : ∀ x ∈ l, x.zOk = true) :
    (sortByZ l).Pairwise (fun a b => zQ a ≤ zQ b) := by
  induction l with
  | nil => simp [sortByZ]
  | cons c t ih =>
    have hc : c.zOk = true := hok c (List.mem_cons_self c t)
    have hokt : ∀ x ∈ t, x.zOk = true := fun x hx => hok x (List.mem_cons_of_mem c hx)
    exact insertByZ_sorted c (sortByZ t)
      (fun x hx => hokt x ((sortByZ_perm t).mem_iff.1 hx)) hc (ih hokt)

theorem insertByZ_filter (k : ℚ) (c : Component) (l : List Component)
    (hok : ∀ x ∈ l, x.zOk = true) (hc : c.zOk = true) :
    (insertByZ c l).filter (fun x => decide (zQ x = k))
      = if zQ c = k then c :: l.filter (fun x => decide (zQ x = k))
        else l.filter (fun x => decide (zQ x = k)) := by
  induction l with
  | nil =>
    simp only [insertByZ, List.filter]
    by_cases hck : zQ c = k
    · simp [hck]
    · simp [hck]
  | cons d t ih =>
    have hd : d.zOk = true := hok d (List.mem_cons_self d t)
    have hokt : ∀ x ∈ t, x.zOk = true := fun x hx => hok x (List.mem_cons_of_mem d hx)
    unfold insertByZ
    by_cases hle : zSortLe c d = true
    · rw [if_pos hle]
      by_cases hck : zQ c = k
      · simp [List.filter, hck]
      · simp [List.filter, hck]
    · rw [if_neg hle]
      rw [zSortLe_eq c d hc hd] at hle
      have hdc : zQ d < zQ c := lt_of_not_le (by simpa using hle)
      by_cases hck : zQ c = k
      · have hdk : ¬ (zQ d = k) := by
          intro hdk
          rw [hdk, hck] at hdc
          exact lt_irrefl k hdc
        simp [List.filter_cons, hdk, hck, ih hokt]
      · simp [List.filter_cons, ih hokt, hck]

theorem sortByZ_stable (k : ℚ) (l : List Component) (hok : ∀ x ∈ l, x.zOk = true) :
    (sortByZ l).filter (fun x => decide (zQ x = k))
      = l.filter (fun x => decide (zQ x = k)) := by
  induction l with
  | nil => rfl
  | cons c t ih =>
    have hc : c.zOk = true := hok c (List.mem_cons_self c t)
    have hokt : ∀ x ∈ t, x.zOk = true := fun x hx => hok x (List.mem_cons_of_mem c hx)
    unfold sortByZ
    rw [insertByZ_filter k c (sortByZ t)
      (fun x hx => hokt x ((sortByZ_perm t).mem_iff.1 hx)) hc, ih hokt]
    by_cases hck : zQ c = k
    · simp [List.filter, hck]
    · simp [List.filter, hck]

/-- C3: the dispatcher `drawComponentsInFrame` renders exactly the
zIndex-sorted component list (missing zIndex read as 0): the sorted list is
ascending in the zIndex key, it is a permutation of the input, equal keys keep
their original relative order (stability, so the original array order has no
influence beyond tie-breaking), the dispatcher is definitionally the render
loop over that sorted list, and on the spec's example with zIndex values
[3,1,2] in original order [A,B,C] the emission order is B, C, A. -/
theorem c3_stacking_order (comps : List Component)
    (hok : ∀ c ∈ comps, c.zOk = true) :
    (sortByZ comps).Pairwise (fun a b => zQ a ≤ zQ b) ∧
    (sortByZ comps).Perm comps ∧
    (∀ k : ℚ, (sortByZ comps).filter (fun c => decide (zQ c = k))
        = comps.filter (fun c => decide (zQ c = k))) ∧
    (∀ env gen ctr frameX frameY slideIndex frameId,
      drawComponentsInFrame env gen ctr comps frameX frameY slideIndex frameId
        = renderLoop env gen ctr (enumF 0 (sortByZ comps)) frameX frameY
            slideIndex frameId) ∧
    sortByZ [exCompA, exCompB, exCompC] = [exCompB, exCompC, exCompA] := by
  refine ⟨sortByZ_sorted comps hok, sortByZ_perm comps,
    fun k => sortByZ_stable k comps hok,
    fun env gen ctr fx fy si fid => rfl, ?_⟩
  norm_num [sortByZ, insertByZ, zSortLe, numNullish, JSNum.sub, JSNum.add,
    JSNum.neg, exCompA, exCompB, exCompC]

theorem c3_stacking_order_witness :
    ([exCompA, exCompB, exCompC].all Component.zOk = true) ∧
    (sortByZ [exCompA, exCompB, exCompC]).map Component.id
      = [some "B", some "C", some "A"] := by
  have h := c3_stacking_order [exCompA, exCompB, exCompC]
    (by intro c hc; fin_cases hc <;> decide)
  exact ⟨by decide, by rw [h.2.2.2.2]; rfl⟩

theorem numOr_fin (o : Option JSNum) (h : finOkB o = true) :
    numOr o 0 = .finite (qOf o) := by
  match o with
  | none => rfl
  | some (.finite q) =>
    by_cases hq : q = 0
    · show (if (JSNum.finite q).truthy = true then JSNum.finite q else 0) = _
      rw [if_neg (by simp [JSNum.truthy, hq])]
      show JSNum.finite ((0 : Nat) : ℚ) = JSNum.finite (qOf (some (JSNum.finite q)))
      rw [hq]
      norm_num [qOf]
    · simp [numOr, qOf, JSNum.truthy, hq]
  | some .posInf => simp [finOkB] at h
  | some .negInf => simp [finOkB] at h
  | some .nan => simp [finOkB] at h

theorem finite_step (s a : ℚ) :
    (if (JSNum.finite s).gt (.finite a) = true then JSNum.finite s else .finite a)
      = .finite (max a s) := by
  by_cases h : a < s
  · rw [if_pos (by simpa [JSNum.gt] using h), max_eq_right h.le]
  · rw [if_neg (by simpa [JSNum.gt] using h), max_eq_left (le_of_not_lt h)]

theorem calcBounds_aux (l : List Component) :
    ∀ (_ : ∀ c ∈ l, c.geomOk = true) (ax ay : ℚ),
    l.foldl
      (fun acc comp =>
        let compMaxX := (numOr comp.x 0).add (numOr comp.width 0)
        let compMaxY := (numOr comp.y 0).add (numOr comp.height 0)
        (if compMaxX.gt acc.1 then compMaxX else acc.1,
         if compMaxY.gt acc.2 then compMaxY else acc.2))
      (.finite ax, .finite ay)
      = (.finite ((l.map fun c => qOf c.x + qOf c.width).foldl max ax),
         .finite ((l.map fun c => qOf c.y + qOf c.height).foldl max ay)) := by
  induction l with
  | nil => intro _ ax ay; rfl
  | cons c t ih =>
    intro hok ax ay
    have hc := hok c (List.mem_cons_self c t)
    unfold Component.geomOk at hc
    rw [Bool.and_eq_true, Bool.and_eq_true, Bool.and_eq_true] at hc
    obtain ⟨⟨⟨hx, hy⟩, hw⟩, hh⟩ := hc
    simp only [List.foldl_cons, List.map_cons]
    rw [numOr_fin c.x hx, numOr_fin c.y hy, numOr_fin c.width hw, numOr_fin c.height hh]
    show t.foldl _
        (if (JSNum.finite (qOf c.x + qOf c.width)).gt (.finite ax) = true
           then JSNum.finite (qOf c.x + qOf c.width) else .finite ax,
         if (JSNum.finite (qOf c.y + qOf c.height)).gt (.finite ay) = true
           then JSNum.finite (qOf c.y + qOf c.height) else .finite ay) = _
    rw [finite_step, finite_step]
    exact ih (fun x hx => hok x (List.mem_cons_of_mem c hx)) _ _

theorem foldr_max_pull (x : ℚ) (t : List ℚ) :
    ∀ a : ℚ, t.foldr max (max a x) = max x (t.foldr max a) := by
  induction t with
  | nil => intro a; exact max_comm a x
  | cons y s ih =>
    intro a
    simp only [List.foldr_cons]
    rw [ih a, max_left_comm]

theorem foldl_max_foldr (l : List ℚ) : ∀ a : ℚ, l.foldl max a = l.foldr max a := by
  induction l with
  | nil => intro a; rfl
  | cons x t ih =>
    intro a
    simp only [List.foldl_cons, List.foldr_cons]
    rw [ih (max a x), foldr_max_pull]

theorem calculateComponentBounds_fin (s : Slide)
    (hok : ∀ c ∈ s.components, c.geomOk = true) :
    calculateComponentBounds s.components
      = (.finite (slideMaxX s), .finite (slideMaxY s)) := by
  have h := calcBounds_aux s.components hok 0 0
  rw [foldl_max_foldr, foldl_max_foldr] at h
  exact h

theorem maxW_fold (slides : List Slide) :
    ∀ (_ : ∀ s ∈ slides, ∀ c ∈ s.components, c.geomOk = true) (a : ℚ),
    slides.foldl
      (fun (acc : JSNum) s => acc.max2 ((calculateComponentBounds s.components).1.add 50))
      (JSNum.finite a)
      = .finite (slides.foldl (fun q s => max q (slideMaxX s + 50)) a) := by
  induction slides with
  | nil => intro _ a; rfl
  | cons s t ih =>
    intro hok a
    simp only [List.foldl_cons]
    rw [calculateComponentBounds_fin s (hok s (List.mem_cons_self s t))]
    show t.foldl _ ((JSNum.finite a).max2 (JSNum.finite (slideMaxX s + 50))) = _
    show t.foldl _ (JSNum.finite (max a (slideMaxX s + 50))) = _
    exact ih (fun x hx => hok x (List.mem_cons_of_mem s hx)) _

theorem maxH_fold (slides : List Slide) :
    ∀ (_ : ∀ s ∈ slides, ∀ c ∈ s.components, c.geomOk = true) (a : ℚ),
    slides.foldl
      (fun (acc : JSNum) s => acc.max2 ((calculateComponentBounds s.components).2.add 50))
      (JSNum.finite a)
      = .finite (slides.foldl (fun q s => max q (slideMaxY s + 50)) a) := by
  induction slides with
  | nil => intro _ a; rfl
  | cons s t ih =>
    intro hok a
    simp only [List.foldl_cons]
    rw [calculateComponentBounds_fin s (hok s (List.mem_cons_self s t))]
    show t.foldl _ ((JSNum.finite a).max2 (JSNum.finite (slideMaxY s + 50))) = _
    show t.foldl _ (JSNum.finite (max a (slideMaxY s + 50))) = _
    exact ih (fun x hx => hok x (List.mem_cons_of_mem s hx)) _

theorem foldr_max_nonneg (l : List ℚ) : 0 ≤ l.foldr max 0 := by
  induction l with
  | nil => exact le_refl 0
  | cons x t ih => exact le_trans ih (le_max_right x _)

theorem slideMaxX_nonneg (s : Slide) : 0 ≤ slideMaxX s := foldr_max_nonneg _

theorem slideMaxY_nonneg (s : Slide) : 0 ≤ slideMaxY s := foldr_max_nonneg _

theorem foldl_max_plus (f : Slide → ℚ) (hf : ∀ s, 0 ≤ f s) (l : List Slide) :
    ∀ a : ℚ, 50 ≤ a →
    l.foldl (fun q s => max q (f s + 50)) a
      = max a ((l.map f).foldr max 0 + 50) := by
  induction l with
  | nil =>
    intro a ha
    simp only [List.foldl_nil, List.map_nil, List.foldr_nil, zero_add]
    exact (max_eq_left ha).symm
  | cons s t ih =>
    intro a ha
    simp only [List.foldl_cons, List.map_cons, List.foldr_cons]
    have h50 : (50 : ℚ) ≤ max a (f s + 50) :=
      le_trans (by linarith [hf s]) (le_max_right a (f s + 50))
    rw [ih (max a (f s + 50)) h50, ← max_add_add_right, max_assoc]

theorem renderImage_no_frame (env : JsEnv) (gen : Nat → String) (ctr : Nat)
    (c : Component) (i : Nat) (fx fy : JSNum) (si : Nat) (fid : Option String) :
    ∀ d ∈ (renderImageComponent env gen ctr c i fx fy si fid).1,
      d.frameSizeOf = none := by
  intro d hd
  simp only [renderImageComponent] at hd
  repeat' split at hd
  all_goals simp at hd
  all_goals subst hd
  all_goals rfl

theorem renderTable_no_frame (c : Component) (i : Nat) (fx fy : JSNum)
    (si : Nat) (fid : Option String) :
    ∀ d ∈ renderTableComponent c i fx fy si fid, d.frameSizeOf = none := by
  intro d hd
  simp only [renderTableComponent] at hd
  split at hd
  · simp at hd
  · rw [List.mem_flatMap] at hd
    obtain ⟨rc, _, hd⟩ := hd
    rw [List.mem_flatMap] at hd
    obtain ⟨cc, _, hd⟩ := hd
    split at hd
    · simp at hd; subst hd; rfl
    · simp at hd
      rcases hd with hd | hd <;> (subst hd; rfl)

theorem renderComponent_no_frame (env : JsEnv) (gen : Nat → String) (ctr : Nat)
    (c : Component) (i : Nat) (fx fy : JSNum) (si : Nat) (fid : Option String) :
    ∀ d ∈ (renderComponent env gen ctr c i fx fy si fid).1,
      d.frameSizeOf = none := by
  intro d hd
  unfold renderComponent at hd
  split at hd
  · simp at hd; subst hd; rfl
  · simp at hd; subst hd; rfl
  · exact renderImage_no_frame env gen ctr c i fx fy si fid d hd
  · exact renderTable_no_frame c i fx fy si fid d hd
  · simp at hd

theorem renderLoop_no_frame (env : JsEnv) (gen : Nat → String) :
    ∀ (l : List (Nat × Component)) (ctr : Nat) (fx fy : JSNum) (si : Nat)
      (fid : Option String),
    ∀ d ∈ (renderLoop env gen ctr l fx fy si fid).1, d.frameSizeOf = none := by
  intro l
  induction l with
  | nil => intro ctr fx fy si fid d hd; simp [renderLoop] at hd
  | cons p rest ih =>
    intro ctr fx fy si fid d hd
    obtain ⟨i, c⟩ := p
    simp only [renderLoop] at hd
    rw [List.mem_append] at hd
    cases hd with
    | inl h => exact renderComponent_no_frame env gen ctr c i fx fy si fid d h
    | inr h => exact ih _ _ _ _ _ d h

theorem drawCIF_no_frame (env : JsEnv) (gen : Nat → String) (ctr : Nat)
    (comps : List Component) (fx fy : JSNum) (si : Nat) (fid : Option String) :
    (drawComponentsInFrame env gen ctr comps fx fy si fid).1.filterMap
      ShapeDesc.frameSizeOf = [] :=
  List.filterMap_eq_nil_iff.2
    (fun d hd => renderLoop_no_frame env gen _ _ _ _ _ _ d hd)

theorem slidesLoop_frames (env : JsEnv) (gen : Nat → String) (maxW maxH : JSNum) :
    ∀ (slides : List Slide) (ctr idx : Nat),
    (slidesLoop env gen maxW maxH ctr idx slides).1.filterMap ShapeDesc.frameSizeOf
      = List.replicate slides.length (maxW, maxH) := by
  intro slides
  induction slides with
  | nil => intro ctr idx; rfl
  | cons s t ih =>
    intro ctr idx
    simp only [slidesLoop, List.filterMap_cons, List.filterMap_append,
      ShapeDesc.frameSizeOf]
    rw [drawCIF_no_frame, ih]
    simp [List.replicate_succ]

/-- C4: with every component's geometric fields finite-or-missing, the frames
emitted by `drawSlides` are exactly one per slide and all carry the single
uniform size `(max(1280, max over slides of (per-slide max of x+width) + 50),
max(720, max over slides of (per-slide max of y+height) + 50))` with missing
fields contributing 0; on the spec's example (one slide reaching (1400, 800)
and one empty slide) that uniform size is (1450, 850). -/
theorem c4_uniform_frame_size (env : JsEnv) (gen : Nat → String) (slides : List Slide)
    (hok : ∀ s ∈ slides, ∀ c ∈ s.components, c.geomOk = true) :
    (drawSlides env gen slides).1.filterMap ShapeDesc.frameSizeOf
      = List.replicate slides.length
          (.finite (claimFrameW slides), .finite (claimFrameH slides)) ∧
    claimFrameW exDocFrames = 1450 ∧ claimFrameH exDocFrames = 850 := by
  refine ⟨?_, ?_, ?_⟩
  · by_cases he : slides.isEmpty
    · simp only [drawSlides, if_pos he]
      cases slides with
      | nil => rfl
      | cons s t => simp [List.isEmpty_cons] at he
    · simp only [drawSlides, if_neg he]
      have e1 : (1280 : JSNum) = JSNum.finite 1280 := rfl
      have e2 : (720 : JSNum) = JSNum.finite 720 := rfl
      rw [e1, e2, maxW_fold slides hok 1280, maxH_fold slides hok 720, slidesLoop_frames,
        foldl_max_plus slideMaxX slideMaxX_nonneg slides 1280 (by norm_num),
        foldl_max_plus slideMaxY slideMaxY_nonneg slides 720 (by norm_num)]
      rfl
  · norm_num [claimFrameW, slideMaxX, exDocFrames, exBig, qOf, max_def]
  · norm_num [claimFrameH, slideMaxY, exDocFrames, exBig, qOf, max_def]

theorem c4_uniform_frame_size_witness :
    (exDocFrames.all fun s => s.components.all Component.geomOk) = true ∧
    (drawSlides exEnv exGen exDocFrames).1.filterMap ShapeDesc.frameSizeOf
      = List.replicate 2 (.finite 1450, .finite 850) := by
  have h := c4_uniform_frame_size exEnv exGen exDocFrames
    (by intro s hs c hc; fin_cases hs <;> fin_cases hc <;> decide)
  refine ⟨by decide, ?_⟩
  rw [h.1, h.2.1, h.2.2]
  rfl

theorem renderImage_ids (env : JsEnv) (gen : Nat → String) (ctr : Nat)
    (c : Component) (i : Nat) (fx fy : JSNum) (si : Nat) (fid : Option String) :
    (renderImageComponent env gen ctr c i fx fy si fid).1.map ShapeDesc.idOf
      = (match c.mdImageUrl with
         | some url =>
           if url = "" then [Tag.placeholder si (idKey c i)]
           else if jsStartsWith url "data:" then
             if env.fetchOk url then
               match env.blobMime url with
               | some _ => [Tag.image si (idKey c i)]
               | none => [Tag.placeholder si (idKey c i)]
             else [Tag.placeholder si (idKey c i)]
           else [Tag.placeholder si (idKey c i)]
         | none => [Tag.placeholder si (idKey c i)]).map renderTagId := by
  simp only [renderImageComponent]
  rcases hu : c.mdImageUrl with _ | url
  · rfl
  · by_cases he : url = ""
    · simp only [he, if_pos rfl]
      rfl
    · by_cases hd : jsStartsWith url "data:"
      · by_cases hf : env.fetchOk url
        · rcases hb : env.blobMime url with _ | mime
          · simp only [if_neg he, if_pos hd, if_pos hf, hb]
            rfl
          · simp only [if_neg he, if_pos hd, if_pos hf, hb]
            rfl
        · simp only [if_neg he, if_pos hd, if_neg hf]
          rfl
      · simp only [if_neg he, if_neg hd]
        rfl

theorem renderTable_ids (c : Component) (i : Nat) (fx fy : JSNum) (si : Nat)
    (fid : Option String) :
    (renderTableComponent c i fx fy si fid).map ShapeDesc.idOf
      = (tagsOfTable c i si).map renderTagId := by
  simp only [renderTableComponent, tagsOfTable]
  split
  · rfl
  · rw [List.map_flatMap, List.map_flatMap]
    apply flatMap_congr_mem
    intro rc _
    rw [List.map_flatMap, List.map_flatMap]
    apply flatMap_congr_mem
    intro cc _
    split <;> rfl

theorem renderComp_ids (env : JsEnv) (gen : Nat → String) (ctr : Nat)
    (c : Component) (i : Nat) (fx fy : JSNum) (si : Nat) (fid : Option String) :
    (renderComponent env gen ctr c i fx fy si fid).1.map ShapeDesc.idOf
      = (tagsOfComp env c i si).map renderTagId := by
  by_cases h1 : c.type = "text"
  · unfold renderComponent tagsOfComp
    rw [h1]
    rfl
  · by_cases h2 : c.type = "shape"
    · unfold renderComponent tagsOfComp
      rw [h2]
      rfl
    · by_cases h3 : c.type = "table"
      · unfold renderComponent tagsOfComp
        rw [h3]
        exact renderTable_ids c i fx fy si fid
      · by_cases h4 : c.type = "image"
        · unfold renderComponent tagsOfComp
          rw [h4]
          exact renderImage_ids env gen ctr c i fx fy si fid
        · unfold renderComponent tagsOfComp
          split <;> simp_all

theorem renderLoop_ids (env : JsEnv) (gen : Nat → String) :
    ∀ (l : List (Nat × Component)) (ctr : Nat) (fx fy : JSNum) (si : Nat)
      (fid : Option String),
    (renderLoop env gen ctr l fx fy si fid).1.map ShapeDesc.idOf
      = (tagsOfComps env l si).map renderTagId := by
  intro l
  induction l with
  | nil => intro ctr fx fy si fid; rfl
  | cons p rest ih =>
    intro ctr fx fy si fid
    obtain ⟨i, c⟩ := p
    simp only [renderLoop, tagsOfComps, List.flatMap_cons, List.map_append]
    rw [renderComp_ids, ih]
    rfl

theorem slidesLoop_ids (env : JsEnv) (gen : Nat → String) (maxW maxH : JSNum) :
    ∀ (slides : List Slide) (ctr idx : Nat),
    (slidesLoop env gen maxW maxH ctr idx slides).1.map ShapeDesc.idOf
      = (tagsOfSlides env idx slides).map renderTagId := by
  intro slides
  induction slides with
  | nil => intro ctr idx; rfl
  | cons s t ih =>
    intro ctr idx
    simp only [slidesLoop, tagsOfSlides, List.map_cons, List.map_append,
      List.cons_append]
    rw [ih]
    have h := renderLoop_ids env gen (enumF 0 (sortByZ s.components)) ctr
      (((JSNum.finite (idx % 4 : Nat)).mul (maxW.add 200)).add 50)
      (((JSNum.finite (idx / 4 : Nat)).mul (maxH.add 200)).add 50)
      idx (some ("slide-frame-" ++ natToString idx))
    rw [show (drawComponentsInFrame env gen ctr s.components
        (((JSNum.finite (idx % 4 : Nat)).mul (maxW.add 200)).add 50)
        (((JSNum.finite (idx / 4 : Nat)).mul (maxH.add 200)).add 50)
        idx (some ("slide-frame-" ++ natToString idx))).1.map ShapeDesc.idOf
      = (tagsOfComps env (enumF 0 (sortByZ s.components)) idx).map renderTagId
      from h]
    rfl

theorem drawSlides_ids (env : JsEnv) (gen : Nat → String) (slides : List Slide) :
    (drawSlides env gen slides).1.map ShapeDesc.idOf
      = (tagsOfSlides env 0 slides).map renderTagId := by
  unfold drawSlides
  by_cases he : slides.isEmpty
  · rw [if_pos he]
    cases slides with
    | nil => rfl
    | cons s t => simp [List.isEmpty_cons] at he
  · rw [if_neg he]
    exact slidesLoop_ids env gen _ _ slides 0 0

theorem natToString_data (n : Nat) : (natToString n).data = natDigits n := rfl

theorem tokens_eq (t : Tag) (h : t.okKey) :
    splitDash (renderTagId t).data = tagTokens t := by
  cases t with
  | frame s =>
    have hd : (renderTagId (Tag.frame s)).data
        = "slide".data ++ '-' :: ("frame".data ++ '-' :: natDigits s) := by
      simp only [renderTagId, string_data_append, natToString_data,
        List.append_assoc]
      rfl
    rw [hd, splitDash_append _ _ (by decide), splitDash_append _ _ (by decide),
      splitDash_no_dash _ (natDigits_no_dash s)]
    rfl
  | text s k =>
    have hd : (renderTagId (Tag.text s k)).data
        = "text".data ++ '-' :: (natDigits s ++ '-' :: k.data) := by
      simp only [renderTagId, string_data_append, natToString_data,
        List.append_assoc]
      rfl
    have hk : '-' ∉ k.data := h
    rw [hd, splitDash_append _ _ (by decide),
      splitDash_append _ _ (natDigits_no_dash s), splitDash_no_dash _ hk]
    rfl
  | geo s k =>
    have hd : (renderTagId (Tag.geo s k)).data
        = "shape".data ++ '-' :: (natDigits s ++ '-' :: k.data) := by
      simp only [renderTagId, string_data_append, natToString_data,
        List.append_assoc]
      rfl
    have hk : '-' ∉ k.data := h
    rw [hd, splitDash_append _ _ (by decide),
      splitDash_append _ _ (natDigits_no_dash s), splitDash_no_dash _ hk]
    rfl
  | image s k =>
    have hd : (renderTagId (Tag.image s k)).data
        = "image".data ++ '-' :: (natDigits s ++ '-' :: k.data) := by
      simp only [renderTagId, string_data_append, natToString_data,
        List.append_assoc]
      rfl
    have hk : '-' ∉ k.data := h
    rw [hd, splitDash_append _ _ (by decide),
      splitDash_append _ _ (natDigits_no_dash s), splitDash_no_dash _ hk]
    rfl
  | placeholder s k =>
    have hd : (renderTagId (Tag.placeholder s k)).data
        = "placeholder".data ++ '-' :: (natDigits s ++ '-' :: k.data) := by
      simp only [renderTagId, string_data_append, natToString_data,
        List.append_assoc]
      rfl
    have hk : '-' ∉ k.data := h
    rw [hd, splitDash_append _ _ (by decide),
      splitDash_append _ _ (natDigits_no_dash s), splitDash_no_dash _ hk]
    rfl
  | cellBg s k r c =>
    have hd : (renderTagId (Tag.cellBg s k r c)).data
        = "table".data ++ '-' :: (natDigits s ++ '-' :: (k.data ++ '-' ::
            ("cell".data ++ '-' :: ("bg".data ++ '-' ::
              (natDigits r ++ '-' :: natDigits c))))) := by
      simp only [renderTagId, string_data_append, natToString_data,
        List.append_assoc]
      rfl
    have hk : '-' ∉ k.data := h
    rw [hd, splitDash_append _ _ (by decide),
      splitDash_append _ _ (natDigits_no_dash s), splitDash_append _ _ hk,
      splitDash_append _ _ (by decide), splitDash_append _ _ (by decide),
      splitDash_append _ _ (natDigits_no_dash r),
      splitDash_no_dash _ (natDigits_no_dash c)]
    rfl
  | cellText s k r c =>
    have hd : (renderTagId (Tag.cellText s k r c)).data
        = "table".data ++ '-' :: (natDigits s ++ '-' :: (k.data ++ '-' ::
            ("cell".data ++ '-' :: ("text".data ++ '-' ::
              (natDigits r ++ '-' :: natDigits c))))) := by
      simp only [renderTagId, string_data_append, natToString_data,
        List.append_assoc]
      rfl
    have hk : '-' ∉ k.data := h
    rw [hd, splitDash_append _ _ (by decide),
      splitDash_append _ _ (natDigits_no_dash s), splitDash_append _ _ hk,
      splitDash_append _ _ (by decide), splitDash_append _ _ (by decide),
      splitDash_append _ _ (natDigits_no_dash r),
      splitDash_no_dash _ (natDigits_no_dash c)]
    rfl

theorem string_of_data {a b : String} (h : a.data = b.data) : a = b := by
  cases a
  cases b
  exact congrArg String.mk h

theorem tagTokens_inj : ∀ t1 t2 : Tag, tagTokens t1 = tagTokens t2 → t1 = t2 := by
  intro t1 t2 h
  cases t1 <;> cases t2 <;> simp [tagTokens] at h <;>
    first
    | rw [natDigits_inj h]
    | rw [natDigits_inj h.1, string_of_data h.2]
    | rw [natDigits_inj h.1, string_of_data h.2.1,
        natDigits_inj h.2.2.1, natDigits_inj h.2.2.2]

theorem renderTagId_inj (t1 t2 : Tag) (h1 : t1.okKey) (h2 : t2.okKey)
    (h : renderTagId t1 = renderTagId t2) : t1 = t2 :=
  tagTokens_inj t1 t2 (by rw [← tokens_eq t1 h1, ← tokens_eq t2 h2, h])

theorem append_dash_inj : ∀ (a1 a2 b1 b2 : List Char), '-' ∉ a1 → '-' ∉ a2 →
    a1 ++ '-' :: b1 = a2 ++ '-' :: b2 → a1 = a2 ∧ b1 = b2 := by
  intro a1
  induction a1 with
  | nil =>
    intro a2 b1 b2 _ ha2 h
    cases a2 with
    | nil => exact ⟨rfl, by simpa using h⟩
    | cons d a2' =>
      simp only [List.nil_append, List.cons_append, List.cons.injEq] at h
      exact absurd (h.1 ▸ List.mem_cons_self d a2') ha2
  | cons c a1' ih =>
    intro a2 b1 b2 ha1 ha2 h
    cases a2 with
    | nil =>
      simp only [List.cons_append, List.nil_append, List.cons.injEq] at h
      exact absurd (h.1 ▸ List.mem_cons_self c a1') ha1
    | cons d a2' =>
      simp only [List.cons_append, List.cons.injEq] at h
      obtain ⟨hcd, h⟩ := h
      have hm1 : '-' ∉ a1' := fun hm => ha1 (List.mem_cons_of_mem c hm)
      have hm2 : '-' ∉ a2' := fun hm => ha2 (List.mem_cons_of_mem d hm)
      obtain ⟨he, hb⟩ := ih a2' b1 b2 hm1 hm2 h
      exact ⟨by rw [hcd, he], hb⟩

theorem joinDash_splitDash : ∀ l : List Char, joinDash (splitDash l) = l := by
  intro l
  induction l with
  | nil => rfl
  | cons c cs ih =>
    by_cases hc : c = '-'
    · subst hc
      rw [splitDash, if_pos rfl]
      rcases hsp : splitDash cs with _ | ⟨g, gs⟩
      · exact absurd hsp (splitDash_ne_nil cs)
      · rw [hsp] at ih
        show ([] : List Char) ++ '-' :: joinDash (g :: gs) = '-' :: cs
        rw [List.nil_append, ih]
    · rw [splitDash, if_neg hc]
      rcases hsp : splitDash cs with _ | ⟨g, gs⟩
      · exact absurd hsp (splitDash_ne_nil cs)
      · rw [hsp] at ih
        cases gs with
        | nil =>
          show c :: g = c :: cs
          rw [show g = cs from ih]
        | cons g2 gs2 =>
          show (c :: g) ++ '-' :: joinDash (g2 :: gs2) = c :: cs
          rw [List.cons_append]
          rw [show g ++ '-' :: joinDash (g2 :: gs2) = cs from ih]

theorem splitDash_inj2 {l1 l2 : List Char} (h : splitDash l1 = splitDash l2) :
    l1 = l2 := by
  rw [← joinDash_splitDash l1, ← joinDash_splitDash l2, h]

theorem renderTagId_inj_all :
    ∀ t1 t2 : Tag, renderTagId t1 = renderTagId t2 → t1 = t2 := by
  intro t1 t2 h
  cases t1 with
  | frame s1 =>
    cases t2 with
    | frame s2 =>
      have hd : "slide-frame-".data ++ natDigits s1
          = "slide-frame-".data ++ natDigits s2 := by
        have h2 := congrArg String.data h
        simp only [renderTagId, string_data_append, List.append_assoc] at h2
        exact h2
      rw [natDigits_inj (List.append_cancel_left hd)]
    | text s2 k2 =>
      have hd : "slide-frame-".data ++ natDigits s1
          = "text-".data ++ (natDigits s2 ++ ('-' :: k2.data)) := by
        have h2 := congrArg String.data h
        simp only [renderTagId, string_data_append, List.append_assoc] at h2
        exact h2
      simp at hd
    | geo s2 k2 =>
      have hd : "slide-frame-".data ++ natDigits s1
          = "shape-".data ++ (natDigits s2 ++ ('-' :: k2.data)) := by
        have h2 := congrArg String.data h
        simp only [renderTagId, string_data_append, List.append_assoc] at h2
        exact h2
      simp at hd
    | image s2 k2 =>
      have hd : "slide-frame-".data ++ natDigits s1
          = "image-".data ++ (natDigits s2 ++ ('-' :: k2.data)) := by
        have h2 := congrArg String.data h
        simp only [renderTagId, string_data_append, List.append_assoc] at h2
        exact h2
      simp at hd
    | placeholder s2 k2 =>
      have hd : "slide-frame-".data ++ natDigits s1
          = "placeholder-".data ++ (natDigits s2 ++ ('-' :: k2.data)) := by
        have h2 := congrArg String.data h
        simp only [renderTagId, string_data_append, List.append_assoc] at h2
        exact h2
      simp at hd
    | cellBg s2 k2 r2 c2 =>
      have hd : "slide-frame-".data ++ natDigits s1
          = "table-".data ++ (natDigits s2 ++ ('-' :: (k2.data ++ ("-cell-bg-".data ++ (natDigits r2 ++ ('-' :: natDigits c2)))))) := by
        have h2 := congrArg String.data h
        simp only [renderTagId, string_data_append, List.append_assoc] at h2
        exact h2
      simp at hd
    | cellText s2 k2 r2 c2 =>
      have hd : "slide-frame-".data ++ natDigits s1
          = "table-".data ++ (natDigits s2 ++ ('-' :: (k2.data ++ ("-cell-text-".data ++ (natDigits r2 ++ ('-' :: natDigits c2)))))) := by
        have h2 := congrArg String.data h
        simp only [renderTagId, string_data_append, List.append_assoc] at h2
        exact h2
      simp at hd
  | text s1 k1 =>
    cases t2 with
    | frame s2 =>
      have hd : "text-".data ++ (natDigits s1 ++ ('-' :: k1.data))
          = "slide-frame-".data ++ natDigits s2 := by
        have h2 := congrArg String.data h
        simp only [renderTagId, string_data_append, List.append_assoc] at h2
        exact h2
      simp at hd
    | text s2 k2 =>
      have hd : "text-".data ++ (natDigits s1 ++ ('-' :: k1.data))
          = "text-".data ++ (natDigits s2 ++ ('-' :: k2.data)) := by
        have h2 := congrArg String.data h
        simp only [renderTagId, string_data_append, List.append_assoc] at h2
        exact h2
      obtain ⟨hs, hk⟩ := append_dash_inj _ _ _ _ (natDigits_no_dash s1)
        (natDigits_no_dash s2) (List.append_cancel_left hd)
      rw [natDigits_inj hs, string_of_data hk]
    | geo s2 k2 =>
      have hd : "text-".data ++ (natDigits s1 ++ ('-' :: k1.data))
          = "shape-".data ++ (natDigits s2 ++ ('-' :: k2.data)) := by
        have h2 := congrArg String.data h
        simp only [renderTagId, string_data_append, List.append_assoc] at h2
        exact h2
      simp at hd
    | image s2 k2 =>
      have hd : "text-".data ++ (natDigits s1 ++ ('-' :: k1.data))
          = "image-".data ++ (natDigits s2 ++ ('-' :: k2.data)) := by
        have h2 := congrArg String.data h
        simp only [renderTagId, string_data_append, List.append_assoc] at h2
        exact h2
      simp at hd
    | placeholder s2 k2 =>
      have hd : "text-".data ++ (natDigits s1 ++ ('-' :: k1.data))
          = "placeholder-".data ++ (natDigits s2 ++ ('-' :: k2.data)) := by
        have h2 := congrArg String.data h
        simp only [renderTagId, string_data_append, List.append_assoc] at h2
        exact h2
      simp at hd
    | cellBg s2 k2 r2 c2 =>
      have hd : "text-".data ++ (natDigits s1 ++ ('-' :: k1.data))
          = "table-".data ++ (natDigits s2 ++ ('-' :: (k2.data ++ ("-cell-bg-".data ++ (natDigits r2 ++ ('-' :: natDigits c2)))))) := by
        have h2 := congrArg String.data h
        simp only [renderTagId, string_data_append, List.append_assoc] at h2
        exact h2
      simp at hd
    | cellText s2 k2 r2 c2 =>
      have hd : "text-".data ++ (natDigits s1 ++ ('-' :: k1.data))
          = "table-".data ++ (natDigits s2 ++ ('-' :: (k2.data ++ ("-cell-text-".data ++ (natDigits r2 ++ ('-' :: natDigits c2)))))) := by
        have h2 := congrArg String.data h
        simp only [renderTagId, string_data_append, List.append_assoc] at h2
        exact h2
      simp at hd
  | geo s1 k1 =>
    cases t2 with
    | frame s2 =>
      have hd : "shape-".data ++ (natDigits s1 ++ ('-' :: k1.data))
          = "slide-frame-".data ++ natDigits s2 := by
        have h2 := congrArg String.data h
        simp only [renderTagId, string_data_append, List.append_assoc] at h2
        exact h2
      simp at hd
    | text s2 k2 =>
      have hd : "shape-".data ++ (natDigits s1 ++ ('-' :: k1.data))
          = "text-".data ++ (natDigits s2 ++ ('-' :: k2.data)) := by
        have h2 := congrArg String.data h
        simp only [renderTagId, string_data_append, List.append_assoc] at h2
        exact h2
      simp at hd
    | geo s2 k2 =>
      have hd : "shape-".data ++ (natDigits s1 ++ ('-' :: k1.data))
          = "shape-".data ++ (natDigits s2 ++ ('-' :: k2.data)) := by
        have h2 := congrArg String.data h
        simp only [renderTagId, string_data_append, List.append_assoc] at h2
        exact h2
      obtain ⟨hs, hk⟩ := append_dash_inj _ _ _ _ (natDigits_no_dash s1)
        (natDigits_no_dash s2) (List.append_cancel_left hd)
      rw [natDigits_inj hs, string_of_data hk]
    | image s2 k2 =>
      have hd : "shape-".data ++ (natDigits s1 ++ ('-' :: k1.data))
          = "image-".data ++ (natDigits s2 ++ ('-' :: k2.data)) := by
        have h2 := congrArg String.data h
        simp only [renderTagId, string_data_append, List.append_assoc] at h2
        exact h2
      simp at hd
    | placeholder s2 k2 =>
      have hd : "shape-".data ++ (natDigits s1 ++ ('-' :: k1.data))
          = "placeholder-".data ++ (natDigits s2 ++ ('-' :: k2.data)) := by
        have h2 := congrArg String.data h
        simp only [renderTagId, string_data_append, List.append_assoc] at h2
        exact h2
      simp at hd
    | cellBg s2 k2 r2 c2 =>
      have hd : "shape-".data ++ (natDigits s1 ++ ('-' :: k1.data))
          = "table-".data ++ (natDigits s2 ++ ('-' :: (k2.data ++ ("-cell-bg-".data ++ (natDigits r2 ++ ('-' :: natDigits c2)))))) := by
        have h2 := congrArg String.data h
        simp only [renderTagId, string_data_append, List.append_assoc] at h2
        exact h2
      simp at hd
    | cellText s2 k2 r2 c2 =>
      have hd : "shape-".data ++ (natDigits s1 ++ ('-' :: k1.data))
          = "table-".data ++ (natDigits s2 ++ ('-' :: (k2.data ++ ("-cell-text-".data ++ (natDigits r2 ++ ('-' :: natDigits c2)))))) := by
        have h2 := congrArg String.data h
        simp only [renderTagId, string_data_append, List.append_assoc] at h2
        exact h2
      simp at hd
  | image s1 k1 =>
    cases t2 with
    | frame s2 =>
      have hd : "image-".data ++ (natDigits s1 ++ ('-' :: k1.data))
          = "slide-frame-".data ++ natDigits s2 := by
        have h2 := congrArg String.data h
        simp only [renderTagId, string_data_append, List.append_assoc] at h2
        exact h2
      simp at hd
    | text s2 k2 =>
      have hd : "image-".data ++ (natDigits s1 ++ ('-' :: k1.data))
          = "text-".data ++ (natDigits s2 ++ ('-' :: k2.data)) := by
        have h2 := congrArg String.data h
        simp only [renderTagId, string_data_append, List.append_assoc] at h2
        exact h2
      simp at hd
    | geo s2 k2 =>
      have hd : "image-".data ++ (natDigits s1 ++ ('-' :: k1.data))
          = "shape-".data ++ (natDigits s2 ++ ('-' :: k2.data)) := by
        have h2 := congrArg String.data h
        simp only [renderTagId, string_data_append, List.append_assoc] at h2
        exact h2
      simp at hd
    | image s2 k2 =>
      have hd : "image-".data ++ (natDigits s1 ++ ('-' :: k1.data))
          = "image-".data ++ (natDigits s2 ++ ('-' :: k2.data)) := by
        have h2 := congrArg String.data h
        simp only [renderTagId, string_data_append, List.append_assoc] at h2
        exact h2
      obtain ⟨hs, hk⟩ := append_dash_inj _ _ _ _ (natDigits_no_dash s1)
        (natDigits_no_dash s2) (List.append_cancel_left hd)
      rw [natDigits_inj hs, string_of_data hk]
    | placeholder s2 k2 =>
      have hd : "image-".data ++ (natDigits s1 ++ ('-' :: k1.data))
          = "placeholder-".data ++ (natDigits s2 ++ ('-' :: k2.data)) := by
        have h2 := congrArg String.data h
        simp only [renderTagId, string_data_append, List.append_assoc] at h2
        exact h2
      simp at hd
    | cellBg s2 k2 r2 c2 =>
      have hd : "image-".data ++ (natDigits s1 ++ ('-' :: k1.data))
          = "table-".data ++ (natDigits s2 ++ ('-' :: (k2.data ++ ("-cell-bg-".data ++ (natDigits r2 ++ ('-' :: natDigits c2)))))) := by
        have h2 := congrArg String.data h
        simp only [renderTagId, string_data_append, List.append_assoc] at h2
        exact h2
      simp at hd
    | cellText s2 k2 r2 c2 =>
      have hd : "image-".data ++ (natDigits s1 ++ ('-' :: k1.data))
          = "table-".data ++ (natDigits s2 ++ ('-' :: (k2.data ++ ("-cell-text-".data ++ (natDigits r2 ++ ('-' :: natDigits c2)))))) := by
        have h2 := congrArg String.data h
        simp only [renderTagId, string_data_append, List.append_assoc] at h2
        exact h2
      simp at hd
  | placeholder s1 k1 =>
    cases t2 with
    | frame s2 =>
      have hd : "placeholder-".data ++ (natDigits s1 ++ ('-' :: k1.data))
          = "slide-frame-".data ++ natDigits s2 := by
        have h2 := congrArg String.data h
        simp only [renderTagId, string_data_append, List.append_assoc] at h2
        exact h2
      simp at hd
    | text s2 k2 =>
      have hd : "placeholder-".data ++ (natDigits s1 ++ ('-' :: k1.data))
          = "text-".data ++ (natDigits s2 ++ ('-' :: k2.data)) := by
        have h2 := congrArg String.data h
        simp only [renderTagId, string_data_append, List.append_assoc] at h2
        exact h2
      simp at hd
    | geo s2 k2 =>
      have hd : "placeholder-".data ++ (natDigits s1 ++ ('-' :: k1.data))
          = "shape-".data ++ (natDigits s2 ++ ('-' :: k2.data)) := by
        have h2 := congrArg String.data h
        simp only [renderTagId, string_data_append, List.append_assoc] at h2
        exact h2
      simp at hd
    | image s2 k2 =>
      have hd : "placeholder-".data ++ (natDigits s1 ++ ('-' :: k1.data))
          = "image-".data ++ (natDigits s2 ++ ('-' :: k2.data)) := by
        have h2 := congrArg String.data h
        simp only [renderTagId, string_data_append, List.append_assoc] at h2
        exact h2
      simp at hd
    | placeholder s2 k2 =>
      have hd : "placeholder-".data ++ (natDigits s1 ++ ('-' :: k1.data))
          = "placeholder-".data ++ (natDigits s2 ++ ('-' :: k2.data)) := by
        have h2 := congrArg String.data h
        simp only [renderTagId, string_data_append, List.append_assoc] at h2
        exact h2
      obtain ⟨hs, hk⟩ := append_dash_inj _ _ _ _ (natDigits_no_dash s1)
        (natDigits_no_dash s2) (List.append_cancel_left hd)
      rw [natDigits_inj hs, string_of_data hk]
    | cellBg s2 k2 r2 c2 =>
      have hd : "placeholder-".data ++ (natDigits s1 ++ ('-' :: k1.data))
          = "table-".data ++ (natDigits s2 ++ ('-' :: (k2.data ++ ("-cell-bg-".data ++ (natDigits r2 ++ ('-' :: natDigits c2)))))) := by
        have h2 := congrArg String.data h
        simp only [renderTagId, string_data_append, List.append_assoc] at h2
        exact h2
      simp at hd
    | cellText s2 k2 r2 c2 =>
      have hd : "placeholder-".data ++ (natDigits s1 ++ ('-' :: k1.data))
          = "table-".data ++ (natDigits s2 ++ ('-' :: (k2.data ++ ("-cell-text-".data ++ (natDigits r2 ++ ('-' :: natDigits c2)))))) := by
        have h2 := congrArg String.data h
        simp only [renderTagId, string_data_append, List.append_assoc] at h2
        exact h2
      simp at hd
  | cellBg s1 k1 r1 c1 =>
    cases t2 with
    | frame s2 =>
      have hd : "table-".data ++ (natDigits s1 ++ ('-' :: (k1.data ++ ("-cell-bg-".data ++ (natDigits r1 ++ ('-' :: natDigits c1))))))
          = "slide-frame-".data ++ natDigits s2 := by
        have h2 := congrArg String.data h
        simp only [renderTagId, string_data_append, List.append_assoc] at h2
        exact h2
      simp at hd
    | text s2 k2 =>
      have hd : "table-".data ++ (natDigits s1 ++ ('-' :: (k1.data ++ ("-cell-bg-".data ++ (natDigits r1 ++ ('-' :: natDigits c1))))))
          = "text-".data ++ (natDigits s2 ++ ('-' :: k2.data)) := by
        have h2 := congrArg String.data h
        simp only [renderTagId, string_data_append, List.append_assoc] at h2
        exact h2
      simp at hd
    | geo s2 k2 =>
      have hd : "table-".data ++ (natDigits s1 ++ ('-' :: (k1.data ++ ("-cell-bg-".data ++ (natDigits r1 ++ ('-' :: natDigits c1))))))
          = "shape-".data ++ (natDigits s2 ++ ('-' :: k2.data)) := by
        have h2 := congrArg String.data h
        simp only [renderTagId, string_data_append, List.append_assoc] at h2
        exact h2
      simp at hd
    | image s2 k2 =>
      have hd : "table-".data ++ (natDigits s1 ++ ('-' :: (k1.data ++ ("-cell-bg-".data ++ (natDigits r1 ++ ('-' :: natDigits c1))))))
          = "image-".data ++ (natDigits s2 ++ ('-' :: k2.data)) := by
        have h2 := congrArg String.data h
        simp only [renderTagId, string_data_append, List.append_assoc] at h2
        exact h2
      simp at hd
    | placeholder s2 k2 =>
      have hd : "table-".data ++ (natDigits s1 ++ ('-' :: (k1.data ++ ("-cell-bg-".data ++ (natDigits r1 ++ ('-' :: natDigits c1))))))
          = "placeholder-".data ++ (natDigits s2 ++ ('-' :: k2.data)) := by
        have h2 := congrArg String.data h
        simp only [renderTagId, string_data_append, List.append_assoc] at h2
        exact h2
      simp at hd
    | cellBg s2 k2 r2 c2 =>
      have hd : (natDigits c1).reverse ++ ('-' :: ((natDigits r1).reverse ++ ('-' :: ("gb".data ++ ('-' :: ("llec".data ++ ('-' :: (k1.data.reverse ++ ('-' :: ((natDigits s1).reverse ++ "-elbat".data))))))))))
          = (natDigits c2).reverse ++ ('-' :: ((natDigits r2).reverse ++ ('-' :: ("gb".data ++ ('-' :: ("llec".data ++ ('-' :: (k2.data.reverse ++ ('-' :: ((natDigits s2).reverse ++ "-elbat".data)))))))))) := by
        have h2 := congrArg (fun s : String => s.data.reverse) h
        simp only [renderTagId, string_data_append, List.reverse_append,
          List.append_assoc] at h2
        exact h2
      have hsp := congrArg splitDash hd
      rw [splitDash_append ((natDigits c1).reverse) _
            (fun hm => natDigits_no_dash c1 (List.mem_reverse.1 hm)),
          splitDash_append ((natDigits r1).reverse) _
            (fun hm => natDigits_no_dash r1 (List.mem_reverse.1 hm)),
          splitDash_append ("gb".data) _ (by decide),
          splitDash_append ("llec".data) _ (by decide),
          splitDash_append ((natDigits c2).reverse) _
            (fun hm => natDigits_no_dash c2 (List.mem_reverse.1 hm)),
          splitDash_append ((natDigits r2).reverse) _
            (fun hm => natDigits_no_dash r2 (List.mem_reverse.1 hm)),
          splitDash_append ("gb".data) _ (by decide),
          splitDash_append ("llec".data) _ (by decide)] at hsp
      injection hsp with h1 hsp
      injection hsp with h2 hsp
      injection hsp with h3 hsp
      injection hsp with h4 hsp
      have hcc := natDigits_inj (List.reverse_injective h1)
      have hrr := natDigits_inj (List.reverse_injective h2)
      have hrest := splitDash_inj2 hsp
      have hk2 : "table-".data ++ (natDigits s1 ++ ('-' :: k1.data))
          = "table-".data ++ (natDigits s2 ++ ('-' :: k2.data)) := by
        have h3r := congrArg List.reverse hrest
        simp only [List.reverse_append, List.reverse_cons,
          List.reverse_reverse, List.append_assoc] at h3r
        exact h3r
      obtain ⟨hs, hk⟩ := append_dash_inj _ _ _ _ (natDigits_no_dash s1)
        (natDigits_no_dash s2) (List.append_cancel_left hk2)
      rw [natDigits_inj hs, string_of_data hk, hrr, hcc]
    | cellText s2 k2 r2 c2 =>
      have hd : (natDigits c1).reverse ++ ('-' :: ((natDigits r1).reverse ++ ('-' :: ("gb".data ++ ('-' :: ("llec".data ++ ('-' :: (k1.data.reverse ++ ('-' :: ((natDigits s1).reverse ++ "-elbat".data))))))))))
          = (natDigits c2).reverse ++ ('-' :: ((natDigits r2).reverse ++ ('-' :: ("txet".data ++ ('-' :: ("llec".data ++ ('-' :: (k2.data.reverse ++ ('-' :: ((natDigits s2).reverse ++ "-elbat".data)))))))))) := by
        have h2 := congrArg (fun s : String => s.data.reverse) h
        simp only [renderTagId, string_data_append, List.reverse_append,
          List.append_assoc] at h2
        exact h2
      have hsp := congrArg splitDash hd
      rw [splitDash_append ((natDigits c1).reverse) _
            (fun hm => natDigits_no_dash c1 (List.mem_reverse.1 hm)),
          splitDash_append ((natDigits r1).reverse) _
            (fun hm => natDigits_no_dash r1 (List.mem_reverse.1 hm)),
          splitDash_append ("gb".data) _ (by decide),
          splitDash_append ("llec".data) _ (by decide),
          splitDash_append ((natDigits c2).reverse) _
            (fun hm => natDigits_no_dash c2 (List.mem_reverse.1 hm)),
          splitDash_append ((natDigits r2).reverse) _
            (fun hm => natDigits_no_dash r2 (List.mem_reverse.1 hm)),
          splitDash_append ("txet".data) _ (by decide),
          splitDash_append ("llec".data) _ (by decide)] at hsp
      injection hsp with h1 hsp
      injection hsp with h2 hsp
      injection hsp with h3 hsp
      exact absurd h3 (by decide)
  | cellText s1 k1 r1 c1 =>
    cases t2 with
    | frame s2 =>
      have hd : "table-".data ++ (natDigits s1 ++ ('-' :: (k1.data ++ ("-cell-text-".data ++ (natDigits r1 ++ ('-' :: natDigits c1))))))
          = "slide-frame-".data ++ natDigits s2 := by
        have h2 := congrArg String.data h
        simp only [renderTagId, string_data_append, List.append_assoc] at h2
        exact h2
      simp at hd
    | text s2 k2 =>
      have hd : "table-".data ++ (natDigits s1 ++ ('-' :: (k1.data ++ ("-cell-text-".data ++ (natDigits r1 ++ ('-' :: natDigits c1))))))
          = "text-".data ++ (natDigits s2 ++ ('-' :: k2.data)) := by
        have h2 := congrArg String.data h
        simp only [renderTagId, string_data_append, List.append_assoc] at h2
        exact h2
      simp at hd
    | geo s2 k2 =>
      have hd : "table-".data ++ (natDigits s1 ++ ('-' :: (k1.data ++ ("-cell-text-".data ++ (natDigits r1 ++ ('-' :: natDigits c1))))))
          = "shape-".data ++ (natDigits s2 ++ ('-' :: k2.data)) := by
        have h2 := congrArg String.data h
        simp only [renderTagId, string_data_append, List.append_assoc] at h2
        exact h2
      simp at hd
    | image s2 k2 =>
      have hd : "table-".data ++ (natDigits s1 ++ ('-' :: (k1.data ++ ("-cell-text-".data ++ (natDigits r1 ++ ('-' :: natDigits c1))))))
          = "image-".data ++ (natDigits s2 ++ ('-' :: k2.data)) := by
        have h2 := congrArg String.data h
        simp only [renderTagId, string_data_append, List.append_assoc] at h2
        exact h2
      simp at hd
    | placeholder s2 k2 =>
      have hd : "table-".data ++ (natDigits s1 ++ ('-' :: (k1.data ++ ("-cell-text-".data ++ (natDigits r1 ++ ('-' :: natDigits c1))))))
          = "placeholder-".data ++ (natDigits s2 ++ ('-' :: k2.data)) := by
        have h2 := congrArg String.data h
        simp only [renderTagId, string_data_append, List.append_assoc] at h2
        exact h2
      simp at hd
    | cellBg s2 k2 r2 c2 =>
      have hd : (natDigits c1).reverse ++ ('-' :: ((natDigits r1).reverse ++ ('-' :: ("txet".data ++ ('-' :: ("llec".data ++ ('-' :: (k1.data.reverse ++ ('-' :: ((natDigits s1).reverse ++ "-elbat".data))))))))))
          = (natDigits c2).reverse ++ ('-' :: ((natDigits r2).reverse ++ ('-' :: ("gb".data ++ ('-' :: ("llec".data ++ ('-' :: (k2.data.reverse ++ ('-' :: ((natDigits s2).reverse ++ "-elbat".data)))))))))) := by
        have h2 := congrArg (fun s : String => s.data.reverse) h
        simp only [renderTagId, string_data_append, List.reverse_append,
          List.append_assoc] at h2
        exact h2
      have hsp := congrArg splitDash hd
      rw [splitDash_append ((natDigits c1).reverse) _
            (fun hm => natDigits_no_dash c1 (List.mem_reverse.1 hm)),
          splitDash_append ((natDigits r1).reverse) _
            (fun hm => natDigits_no_dash r1 (List.mem_reverse.1 hm)),
          splitDash_append ("txet".data) _ (by decide),
          splitDash_append ("llec".data) _ (by decide),
          splitDash_append ((natDigits c2).reverse) _
            (fun hm => natDigits_no_dash c2 (List.mem_reverse.1 hm)),
          splitDash_append ((natDigits r2).reverse) _
            (fun hm => natDigits_no_dash r2 (List.mem_reverse.1 hm)),
          splitDash_append ("gb".data) _ (by decide),
          splitDash_append ("llec".data) _ (by decide)] at hsp
      injection hsp with h1 hsp
      injection hsp with h2 hsp
      injection hsp with h3 hsp
      exact absurd h3 (by decide)
    | cellText s2 k2 r2 c2 =>
      have hd : (natDigits c1).reverse ++ ('-' :: ((natDigits r1).reverse ++ ('-' :: ("txet".data ++ ('-' :: ("llec".data ++ ('-' :: (k1.data.reverse ++ ('-' :: ((natDigits s1).reverse ++ "-elbat".data))))))))))
          = (natDigits c2).reverse ++ ('-' :: ((natDigits r2).reverse ++ ('-' :: ("txet".data ++ ('-' :: ("llec".data ++ ('-' :: (k2.data.reverse ++ ('-' :: ((natDigits s2).reverse ++ "-elbat".data)))))))))) := by
        have h2 := congrArg (fun s : String => s.data.reverse) h
        simp only [renderTagId, string_data_append, List.reverse_append,
          List.append_assoc] at h2
        exact h2
      have hsp := congrArg splitDash hd
      rw [splitDash_append ((natDigits c1).reverse) _
            (fun hm => natDigits_no_dash c1 (List.mem_reverse.1 hm)),
          splitDash_append ((natDigits r1).reverse) _
            (fun hm => natDigits_no_dash r1 (List.mem_reverse.1 hm)),
          splitDash_append ("txet".data) _ (by decide),
          splitDash_append ("llec".data) _ (by decide),
          splitDash_append ((natDigits c2).reverse) _
            (fun hm => natDigits_no_dash c2 (List.mem_reverse.1 hm)),
          splitDash_append ((natDigits r2).reverse) _
            (fun hm => natDigits_no_dash r2 (List.mem_reverse.1 hm)),
          splitDash_append ("txet".data) _ (by decide),
          splitDash_append ("llec".data) _ (by decide)] at hsp
      injection hsp with h1 hsp
      injection hsp with h2 hsp
      injection hsp with h3 hsp
      injection hsp with h4 hsp
      have hcc := natDigits_inj (List.reverse_injective h1)
      have hrr := natDigits_inj (List.reverse_injective h2)
      have hrest := splitDash_inj2 hsp
      have hk2 : "table-".data ++ (natDigits s1 ++ ('-' :: k1.data))
          = "table-".data ++ (natDigits s2 ++ ('-' :: k2.data)) := by
        have h3r := congrArg List.reverse hrest
        simp only [List.reverse_append, List.reverse_cons,
          List.reverse_reverse, List.append_assoc] at h3r
        exact h3r
      obtain ⟨hs, hk⟩ := append_dash_inj _ _ _ _ (natDigits_no_dash s1)
        (natDigits_no_dash s2) (List.append_cancel_left hk2)
      rw [natDigits_inj hs, string_of_data hk, hrr, hcc]

theorem typeFam_eq {k : Nat} {a b : String} (ha : k ∈ typeFam a)
    (hb : k ∈ typeFam b) : a = b := by
  unfold typeFam at ha hb
  repeat' split at ha
  all_goals repeat' split at hb
  all_goals simp_all
  all_goals rcases ha with ha | ha <;> rcases hb with hb | hb <;> omega

theorem typeFam_pos {k : Nat} {a : String} (ha : k ∈ typeFam a) : k ≠ 0 := by
  unfold typeFam at ha
  repeat' split at ha
  all_goals simp_all
  all_goals rcases ha with ha | ha <;> omega

theorem enumF_ge : ∀ (l : List α) (j : Nat), ∀ p ∈ enumF j l, j ≤ p.1 := by
  intro l
  induction l with
  | nil => intro j p hp; simp [enumF] at hp
  | cons a t ih =>
    intro j p hp
    rw [enumF] at hp
    rcases List.mem_cons.1 hp with h | h
    · subst h; exact le_refl j
    · exact le_trans (Nat.le_succ j) (ih (j + 1) p h)

theorem enumF_pairwise : ∀ (l : List α) (j : Nat),
    (enumF j l).Pairwise (fun a b => a.1 < b.1) := by
  intro l
  induction l with
  | nil => intro j; simp [enumF]
  | cons a t ih =>
    intro j
    rw [enumF]
    exact List.pairwise_cons.2
      ⟨fun p hp => lt_of_lt_of_le (Nat.lt_succ_self j) (enumF_ge t (j + 1) p hp),
       ih (j + 1)⟩

theorem nodup_flatMap_of {l : List α} {f : α → List β}
    (hn : ∀ a ∈ l, (f a).Nodup)
    (hd : l.Pairwise (fun a b => ∀ t ∈ f a, t ∉ f b)) :
    (l.flatMap f).Nodup := by
  induction l with
  | nil => simp
  | cons a t ih =>
    rw [List.flatMap_cons, List.nodup_append]
    obtain ⟨hda, hdt⟩ := List.pairwise_cons.1 hd
    refine ⟨hn a (List.mem_cons_self a t), ih (fun x hx => hn x (List.mem_cons_of_mem a hx)) hdt, ?_⟩
    intro x hx hx'
    obtain ⟨b, hb, hxb⟩ := List.mem_flatMap.1 hx'
    exact hda b hb x hx hxb

theorem tagsOfTable_mem (c : Component) (i si : Nat) :
    ∀ t ∈ tagsOfTable c i si,
      (kindIdx t = 5 ∨ kindIdx t = 6) ∧ t.keyOf = idKey c i ∧ t.slideOf = si := by
  intro t ht
  simp only [tagsOfTable] at ht
  split at ht
  · simp at ht
  · obtain ⟨rc, _, ht⟩ := List.mem_flatMap.1 ht
    obtain ⟨cc, _, ht⟩ := List.mem_flatMap.1 ht
    split at ht
    · simp at ht
      subst ht
      exact ⟨Or.inl rfl, rfl, rfl⟩
    · simp at ht
      rcases ht with ht | ht <;> subst ht
      · exact ⟨Or.inl rfl, rfl, rfl⟩
      · exact ⟨Or.inr rfl, rfl, rfl⟩

theorem tagsOfComp_facts (env : JsEnv) (c : Component) (i si : Nat) :
    ∀ t ∈ tagsOfComp env c i si,
      kindIdx t ∈ typeFam c.type ∧ t.keyOf = idKey c i ∧ t.slideOf = si := by
  intro t ht
  by_cases h1 : c.type = "text"
  · have hun : tagsOfComp env c i si = [Tag.text si (idKey c i)] := by
      unfold tagsOfComp
      rw [h1]
      rfl
    rw [hun] at ht
    simp at ht
    subst ht
    exact ⟨by rw [h1]; show (1 : Nat) ∈ typeFam "text"; decide, rfl, rfl⟩
  · by_cases h2 : c.type = "shape"
    · have hun : tagsOfComp env c i si = [Tag.geo si (idKey c i)] := by
        unfold tagsOfComp
        rw [h2]
        rfl
      rw [hun] at ht
      simp at ht
      subst ht
      exact ⟨by rw [h2]; show (2 : Nat) ∈ typeFam "shape"; decide, rfl, rfl⟩
    · by_cases h3 : c.type = "table"
      · have hun : tagsOfComp env c i si = tagsOfTable c i si := by
          unfold tagsOfComp
          rw [h3]
          rfl
        rw [hun] at ht
        obtain ⟨hk, hkey, hs⟩ := tagsOfTable_mem c i si t ht
        refine ⟨?_, hkey, hs⟩
        rw [h3]
        rcases hk with hk | hk <;> rw [hk] <;> decide
      · by_cases h4 : c.type = "image"
        · have hun : tagsOfComp env c i si
              = (match c.mdImageUrl with
                 | some url =>
                   if url = "" then [Tag.placeholder si (idKey c i)]
                   else if jsStartsWith url "data:" then
                     if env.fetchOk url then
                       match env.blobMime url with
                       | some _ => [Tag.image si (idKey c i)]
                       | none => [Tag.placeholder si (idKey c i)]
                     else [Tag.placeholder si (idKey c i)]
                   else [Tag.placeholder si (idKey c i)]
                 | none => [Tag.placeholder si (idKey c i)]) := by
            unfold tagsOfComp
            rw [h4]
            rfl
          rw [hun] at ht
          rcases hu : c.mdImageUrl with _ | url <;> rw [hu] at ht <;>
            simp only [] at ht
          · simp at ht; subst ht
            exact ⟨by rw [h4]; show (4 : Nat) ∈ typeFam "image"; decide, rfl, rfl⟩
          · by_cases he : url = ""
            · rw [if_pos he] at ht
              simp at ht; subst ht
              exact ⟨by rw [h4]; show (4 : Nat) ∈ typeFam "image"; decide, rfl, rfl⟩
            · rw [if_neg he] at ht
              by_cases hd : jsStartsWith url "data:"
              · rw [if_pos hd] at ht
                by_cases hf : env.fetchOk url
                · rw [if_pos hf] at ht
                  rcases hb : env.blobMime url with _ | m <;> rw [hb] at ht
                  · simp at ht; subst ht
                    exact ⟨by rw [h4]; show (4 : Nat) ∈ typeFam "image"; decide,
                      rfl, rfl⟩
                  · simp at ht; subst ht
                    exact ⟨by rw [h4]; show (3 : Nat) ∈ typeFam "image"; decide,
                      rfl, rfl⟩
                · rw [if_neg hf] at ht
                  simp at ht; subst ht
                  exact ⟨by rw [h4]; show (4 : Nat) ∈ typeFam "image"; decide,
                    rfl, rfl⟩
              · rw [if_neg hd] at ht
                simp at ht; subst ht
                exact ⟨by rw [h4]; show (4 : Nat) ∈ typeFam "image"; decide,
                  rfl, rfl⟩
        · have hun : tagsOfComp env c i si = [] := by
            unfold tagsOfComp
            split <;> simp_all
          rw [hun] at ht
          simp at ht

theorem tagsOfTable_nodup (c : Component) (i si : Nat) :
    (tagsOfTable c i si).Nodup := by
  simp only [tagsOfTable]
  split
  · exact List.nodup_nil
  · apply nodup_flatMap_of
    · intro rc _
      apply nodup_flatMap_of
      · intro cc _
        split
        · exact List.nodup_singleton _
        · simp
      · refine (enumF_pairwise rc.2 0).imp ?_
        intro a b hab t hta htb
        have ha : cellOf t = some (rc.1, a.1) := by
          split at hta
          · simp at hta; subst hta; rfl
          · simp at hta
            rcases hta with h | h <;> subst h <;> rfl
        have hb2 : cellOf t = some (rc.1, b.1) := by
          split at htb
          · simp at htb; subst htb; rfl
          · simp at htb
            rcases htb with h | h <;> subst h <;> rfl
        rw [ha] at hb2
        simp at hb2
        omega
    · refine (enumF_pairwise c.mdTableData 0).imp ?_
      intro ra rb hab t hta htb
      obtain ⟨ca, _, hta⟩ := List.mem_flatMap.1 hta
      obtain ⟨cb, _, htb⟩ := List.mem_flatMap.1 htb
      have ha : cellOf t = some (ra.1, ca.1) := by
        split at hta
        · simp at hta; subst hta; rfl
        · simp at hta
          rcases hta with h | h <;> subst h <;> rfl
      have hb2 : cellOf t = some (rb.1, cb.1) := by
        split at htb
        · simp at htb; subst htb; rfl
        · simp at htb
          rcases htb with h | h <;> subst h <;> rfl
      rw [ha] at hb2
      simp at hb2
      omega

theorem tagsOfComp_nodup (env : JsEnv) (c : Component) (i si : Nat) :
    (tagsOfComp env c i si).Nodup := by
  unfold tagsOfComp
  split
  · exact List.nodup_singleton _
  · exact List.nodup_singleton _
  · repeat' split
    all_goals exact List.nodup_singleton _
  · exact tagsOfTable_nodup c i si
  · exact List.nodup_nil

theorem tagsOfComps_nodup (env : JsEnv) (si : Nat) (comps : List Component)
    (hkeys : KeysDistinct comps) :
    (tagsOfComps env (enumF 0 (sortByZ comps)) si).Nodup := by
  unfold tagsOfComps
  apply nodup_flatMap_of
  · intro ic _
    exact tagsOfComp_nodup env ic.2 ic.1 si
  · refine hkeys.imp ?_
    intro a b hab t hta htb
    obtain ⟨hka, hkeya, -⟩ := tagsOfComp_facts env a.2 a.1 si t hta
    obtain ⟨hkb, hkeyb, -⟩ := tagsOfComp_facts env b.2 b.1 si t htb
    have hkk : idKey a.2 a.1 = idKey b.2 b.1 := by rw [← hkeya, ← hkeyb]
    exact hab (typeFam_eq hka hkb) hkk

theorem tagsOfSlides_nodup (env : JsEnv) :
    ∀ (slides : List Slide) (idx : Nat)
      (_ : ∀ s ∈ slides, KeysDistinct s.components),
      (tagsOfSlides env idx slides).Nodup
      ∧ ∀ t ∈ tagsOfSlides env idx slides, idx ≤ t.slideOf := by
  intro slides
  induction slides with
  | nil =>
    intro idx _
    exact ⟨List.nodup_nil, by intro t ht; simp [tagsOfSlides] at ht⟩
  | cons s rest ih =>
    intro idx hkeys
    have hA : ∀ t ∈ tagsOfComps env (enumF 0 (sortByZ s.components)) idx,
        kindIdx t ≠ 0 ∧ t.slideOf = idx := by
      intro t ht
      obtain ⟨ic, _, ht⟩ := List.mem_flatMap.1 ht
      obtain ⟨hk, -, hs⟩ := tagsOfComp_facts env ic.2 ic.1 idx t ht
      exact ⟨typeFam_pos hk, hs⟩
    obtain ⟨ihn, ihs⟩ := ih (idx + 1) (fun x hx => hkeys x (List.mem_cons_of_mem s hx))
    rw [tagsOfSlides]
    constructor
    · rw [List.nodup_cons, List.nodup_append]
      refine ⟨?_, tagsOfComps_nodup env idx s.components
          (hkeys s (List.mem_cons_self s rest)), ihn, ?_⟩
      · intro hmem
        rcases List.mem_append.1 hmem with h | h
        · exact (hA _ h).1 rfl
        · have h2 := ihs _ h
          simp [Tag.slideOf] at h2
      · intro t ht ht'
        have h1 := (hA t ht).2
        have h2 := ihs t ht'
        omega
    · intro t ht
      rcases List.mem_cons.1 ht with h | h
      · subst h
        exact le_refl idx
      · rcases List.mem_append.1 h with h | h
        · exact le_of_eq ((hA t h).2).symm
        · exact le_trans (Nat.le_succ idx) (ihs t h)

theorem idKey_ok (c : Component) (i : Nat) (h : c.idOk = true) :
    '-' ∉ (idKey c i).data := by
  unfold Component.idOk at h
  unfold idKey
  split
  case h_1 s heq =>
    rw [heq] at h
    simp at h
    split
    · exact natDigits_no_dash i
    · exact h
  case h_2 heq => exact natDigits_no_dash i

theorem tagsOfSlides_okKey (env : JsEnv) :
    ∀ (slides : List Slide) (idx : Nat)
      (_ : ∀ s ∈ slides, ∀ c ∈ s.components, c.idOk = true),
      ∀ t ∈ tagsOfSlides env idx slides, t.okKey := by
  intro slides
  induction slides with
  | nil => intro idx _ t ht; simp [tagsOfSlides] at ht
  | cons s rest ih =>
    intro idx hid t ht
    rw [tagsOfSlides] at ht
    rcases List.mem_cons.1 ht with h | h
    · subst h
      show '-' ∉ ("" : String).data
      decide
    · rcases List.mem_append.1 h with h | h
      · obtain ⟨ic, hic, h⟩ := List.mem_flatMap.1 h
        obtain ⟨-, hkey, -⟩ := tagsOfComp_facts env ic.2 ic.1 idx t h
        show '-' ∉ t.keyOf.data
        rw [hkey]
        have hcm : ic.2 ∈ sortByZ s.components := by
          have hm := List.mem_map_of_mem Prod.snd hic
          rw [enumF_map_snd] at hm
          exact hm
        exact idKey_ok ic.2 ic.1
          (hid s (List.mem_cons_self s rest) ic.2
            ((sortByZ_perm s.components).subset hcm))
      · exact ih (idx + 1)
          (fun x hx => hid x (List.mem_cons_of_mem s hx)) t h

/-- C1 (amended): provided no two same-type components of a slide share an
id-or-index key, every emitted shape identifier is the deterministic rendering
of its tag (shape kind, slide index, id-or-index key, and cell coordinates for
tables) and all emitted identifiers are pairwise distinct — even when keys
contain dashes, since kind prefixes differ pairwise and the digit-only
slide/row/column segments make every identifier parse uniquely.  Without the
key proviso the claim fails: two same-type components with the same id on one
slide produce identical identifiers. -/
theorem c1_unique_ids (env : JsEnv) (gen : Nat → String) (slides : List Slide)
    (hkeys : ∀ s ∈ slides, KeysDistinct s.components) :
    (drawSlides env gen slides).1.map ShapeDesc.idOf
      = (tagsOfSlides env 0 slides).map renderTagId
    ∧ ((drawSlides env gen slides).1.map ShapeDesc.idOf).Nodup := by
  refine ⟨drawSlides_ids env gen slides, ?_⟩
  rw [drawSlides_ids]
  exact ((tagsOfSlides_nodup env slides 0 hkeys).1).map_on
    (fun x _ y _ hxy => renderTagId_inj_all x y hxy)

theorem keysDistinct_of (comps : List Component) (hs : sortByZ comps = comps)
    (hp : (enumF 0 comps).Pairwise
      fun a b => a.2.type = b.2.type → idKey a.2 a.1 ≠ idKey b.2 b.1) :
    KeysDistinct comps := by
  unfold KeysDistinct
  rw [hs]
  exact hp

theorem c1_counterexample :
    ¬ ((drawSlides exEnv exGen exDocDup).1.map ShapeDesc.idOf).Nodup := by
  have h : (drawSlides exEnv exGen exDocDup).1.map ShapeDesc.idOf
      = (tagsOfSlides exEnv 0 exDocDup).map renderTagId :=
    drawSlides_ids exEnv exGen exDocDup
  have htags : tagsOfSlides exEnv 0 exDocDup
      = [Tag.frame 0, Tag.text 0 "a", Tag.text 0 "a"] := by
    norm_num [tagsOfSlides, tagsOfComps, tagsOfComp, sortByZ, insertByZ, zSortLe,
      numNullish, JSNum.sub, JSNum.add, JSNum.neg, enumF, exDocDup, exTextA,
      exTextB, idKey]
    decide
  rw [h, htags]
  decide

theorem c1_unique_ids_witness :
    (∀ s ∈ exDocDash, KeysDistinct s.components) ∧
    ((drawSlides exEnv exGen exDocDash).1.map ShapeDesc.idOf).Nodup := by
  have hkeys : ∀ s ∈ exDocDash, KeysDistinct s.components := by
    intro s hs
    fin_cases hs
    exact keysDistinct_of _
      (by norm_num [sortByZ, insertByZ, zSortLe, numNullish, JSNum.sub,
        JSNum.add, JSNum.neg, exTextDash, exTableDash])
      (by decide)
  exact ⟨hkeys, (c1_unique_ids exEnv exGen exDocDash hkeys).2⟩
